import Mathlib

/-!
# Verification of the Satellites native game engine

Shallow embedding of `src/native/satellites_native/src/lib.rs` (the rules
engine of the two-player hex-grid game) together with proofs about the
board topology, the legal-action enumerator, the turn state machine and
its mutation rules.

Modelling conventions:
* Rust `u8` values are modelled as `Nat`; the source's `saturating_add`
  becomes `satAdd8` (clamp at 255).
* Rust `i8` values are modelled as `Int`; the cast `turn as i8` becomes
  `toI8`.
* Rust `i16` arithmetic (`+=` on scores and `turn_count`, `-=` on
  `actions_remaining`) wraps in release builds; we model these additions
  with `wrap16` (two's-complement wrap at 16 bits).
* `Vec` indexing is modelled with `List.getD`; out-of-range indexing
  panics in Rust, so every theorem carries hypotheses keeping all indices
  in range, where `getD` agrees with the source.
* Fallible functions (`PyResult`) are modelled with `Except String`.
-/

namespace Satellites

/-- Fixed row widths of the 9-row hex board (source: `row_widths` inside
`neighbors_by_cell_id`). -/
def rowWidths : List Nat := [8, 9, 10, 11, 12, 11, 10, 9, 8]

/-- Static row offsets (source: `row_offsets`). -/
def rowOffsets : List Nat := [0, 8, 17, 27, 38, 50, 61, 71, 80]

/-- Number of cells; the source computes `row_widths.iter().sum()`. -/
def numCells : Nat := rowWidths.sum

/-- The six candidate neighbour coordinates of cell `(r, c)`, in the order
the source fills its `candidates` array; `(-1, -1)` placeholders stand for
the unused slots and are discarded by the bounds filter below. -/
def candidateCoords (r c : Nat) : List (Int × Int) :=
  [((r : Int), (c : Int) - 1), ((r : Int), (c : Int) + 1)] ++
  (if 0 < r then
    (if r ≤ 4 then [((r : Int) - 1, (c : Int) - 1), ((r : Int) - 1, (c : Int))]
     else [((r : Int) - 1, (c : Int)), ((r : Int) - 1, (c : Int) + 1)])
   else [(-1, -1), (-1, -1)]) ++
  (if r < 8 then
    (if r < 4 then [((r : Int) + 1, (c : Int)), ((r : Int) + 1, (c : Int) + 1)]
     else [((r : Int) + 1, (c : Int) - 1), ((r : Int) + 1, (c : Int))])
   else [(-1, -1), (-1, -1)])

/-- Bounds filter and row-major cell id of a candidate coordinate
(source: the `for (nr, nc) in candidates` loop body). -/
def coordToId (p : Int × Int) : Option Nat :=
  if 0 ≤ p.1 ∧ p.1 < 9 ∧ 0 ≤ p.2 ∧ p.2 < ((rowWidths.getD p.1.toNat 0 : Nat) : Int) then
    some (rowOffsets.getD p.1.toNat 0 + p.2.toNat)
  else none

/-- The cached adjacency list (source: `neighbors_by_cell_id`), one entry
per cell in row-major order. -/
def neighborsByCellId : List (List Nat) :=
  (List.range 9).flatMap (fun r =>
    (List.range (rowWidths.getD r 0)).map (fun c =>
      (candidateCoords r c).filterMap coordToId))

/-- All directed edges `(source, neighbour)` in the fixed enumeration
order used by the source's running `edge_ordinal` counter (outer loop
over source cells, inner loop over that cell's neighbour list). -/
def edgeList : List (Nat × Nat) :=
  (List.range neighborsByCellId.length).flatMap (fun s =>
    (neighborsByCellId.getD s []).map (fun e => (s, e)))

/-- `u8::saturating_add`. -/
def satAdd8 (a b : Nat) : Nat := min (a + b) 255

/-- Two's-complement wrap of an `i16` addition result (release-build Rust
semantics for `i16` overflow). -/
def wrap16 (x : Int) : Int := (x + 32768) % 65536 - 32768

/-- The cast `u8 as i8`. -/
def toI8 (n : Nat) : Int :=
  if n % 256 < 128 then ((n % 256 : Nat) : Int) else ((n % 256 : Nat) : Int) - 256

/-- The `(lo, hi)` legal amount range the enumerator computes for one
directed edge (the `let mut lo = 0; let mut hi = 0; if ... ` chain inside
`generate_legal_action_indices_inner`); `lo = 0` means no legal amount. -/
def moveLoHi (turn : Int) (req_kind src_count : Nat)
    (target_owner : Int) (target_kind target_count : Nat) (artefact_dest : Bool) :
    Nat × Nat :=
  if req_kind = 2 ∧ artefact_dest then (0, 0)
  else if target_owner = -1 then (1, src_count)
  else if target_owner = turn then
    (if target_kind = req_kind then (1, src_count) else (0, 0))
  else if req_kind = 2 then
    (if target_kind = 1 then (1, src_count)
     else if target_kind = 2 ∧ target_count < src_count then (target_count + 1, src_count)
     else (0, 0))
  else (0, 0)

/-- Total unit count owned by `turn` (the `owner_total` loop duplicated in
`generate_legal_action_indices_inner` and `apply_add`). -/
def ownerTotal (unit_owner : List Int) (unit_count : List Nat) (turn : Int) : Nat :=
  ((List.range unit_owner.length).map (fun i =>
    if unit_owner.getD i (-1) = turn then unit_count.getD i 0 else 0)).sum

/-- ChooseSatellite branch of the enumerator: every slot index 0–5 whose
charge is positive, in index order (the source's `enumerate().take(6)`
loop; for lists of length ≥ 6, and equally for shorter ones, it agrees
with filtering `0..6` on `getD`, since a missing entry is never pushed). -/
def legalSatChoices (sat_charges : List Nat) : List Nat :=
  (List.range 6).filterMap (fun i =>
    if 0 < sat_charges.getD i 0 then some i else none)

/-- add_tank branch of the enumerator: one pass over all cells in order. -/
def legalAddTank (turn : Int) (unit_owner : List Int) (unit_kind : List Nat)
    (is_artefact is_p0_start is_p1_start : List Bool) : List Nat :=
  (List.range unit_owner.length).filterMap (fun cid =>
    if unit_owner.getD cid (-1) = -1 then
      (if (if turn = 0 then is_p1_start else is_p0_start).getD cid false = false ∧
          is_artefact.getD cid false = false then
        some (8 + cid) else none)
    else if unit_owner.getD cid (-1) = turn ∧ unit_kind.getD cid 0 = 2 then
      some (8 + cid)
    else none)

/-- add_bot branch of the enumerator: two passes over all cells (own bot
cells first, then empty own-start cells), concatenated in that order. -/
def legalAddBot (turn : Int) (unit_owner : List Int) (unit_kind : List Nat)
    (is_p0_start is_p1_start : List Bool) : List Nat :=
  ((List.range unit_owner.length).filterMap (fun cid =>
    if unit_owner.getD cid (-1) = turn ∧ unit_kind.getD cid 0 = 1 then
      some (8 + cid) else none)) ++
  ((List.range unit_owner.length).filterMap (fun cid =>
    if (if turn = 0 then is_p0_start else is_p1_start).getD cid false = true ∧
        unit_owner.getD cid (-1) = -1 then
      some (8 + cid) else none))

/-- Source cell of the directed edge at ordinal `ord` (the `sid` the
source's decode loop recovers). -/
def edgeSrc (ord : Nat) : Nat := (edgeList.getD ord (0, 0)).1

/-- Destination cell of the directed edge at ordinal `ord`. -/
def edgeDst (ord : Nat) : Nat := (edgeList.getD ord (0, 0)).2

/-- The source-cell validity condition (`src_is_valid` together with the
two fixed opponent-start destination exclusions) of the move loop at edge
ordinal `ord`. -/
def moveSrcOk (turn : Int) (req_kind : Nat) (unit_owner : List Int)
    (unit_kind unit_count : List Nat) (ord : Nat) : Prop :=
  unit_owner.getD (edgeSrc ord) (-1) = turn ∧
  unit_kind.getD (edgeSrc ord) 0 = req_kind ∧
  0 < unit_count.getD (edgeSrc ord) 0 ∧
  edgeDst ord ≠ (if turn = 0 then 83 else 3) ∧
  edgeDst ord ≠ (if turn = 0 then 84 else 4)

instance (turn : Int) (req_kind : Nat) (unit_owner : List Int)
    (unit_kind unit_count : List Nat) (ord : Nat) :
    Decidable (moveSrcOk turn req_kind unit_owner unit_kind unit_count ord) := by
  unfold moveSrcOk; infer_instance

/-- The `(lo, hi)` range the enumerator computes for the edge at ordinal
`ord`. -/
def moveLoHiAt (turn : Int) (req_kind : Nat) (unit_owner : List Int)
    (unit_kind unit_count : List Nat) (is_artefact : List Bool) (ord : Nat) :
    Nat × Nat :=
  moveLoHi turn req_kind (unit_count.getD (edgeSrc ord) 0)
    (unit_owner.getD (edgeDst ord) (-1)) (unit_kind.getD (edgeDst ord) 0)
    (unit_count.getD (edgeDst ord) 0) (is_artefact.getD (edgeDst ord) false)

/-- One per-edge block of the move enumerator: the loop body executed at
edge ordinal `ord`, producing the encoded indices of all legal amounts
along that directed edge (hi clamped to `max_move_amount`). -/
def moveBlock (turn : Int) (req_kind : Nat) (unit_owner : List Int)
    (unit_kind unit_count : List Nat) (is_artefact : List Bool)
    (max_move_amount ord : Nat) : List Nat :=
  if moveSrcOk turn req_kind unit_owner unit_kind unit_count ord then
    if 1 ≤ (moveLoHiAt turn req_kind unit_owner unit_kind unit_count is_artefact ord).1 ∧
        (moveLoHiAt turn req_kind unit_owner unit_kind unit_count is_artefact ord).1 ≤
          min (moveLoHiAt turn req_kind unit_owner unit_kind unit_count is_artefact ord).2
            max_move_amount then
      (List.range'
        (moveLoHiAt turn req_kind unit_owner unit_kind unit_count is_artefact ord).1
        (min (moveLoHiAt turn req_kind unit_owner unit_kind unit_count is_artefact ord).2
            max_move_amount + 1 -
          (moveLoHiAt turn req_kind unit_owner unit_kind unit_count is_artefact ord).1)).map
        (fun amount => 8 + unit_owner.length + ord * max_move_amount + (amount - 1))
    else []
  else []

/-- Move branch of the enumerator: the source's double loop over cells
and their neighbour lists with a running `edge_ordinal`, written as a
flatMap over positions of `edgeList` (the flattened loop). -/
def legalMoves (turn : Int) (req_kind : Nat) (unit_owner : List Int)
    (unit_kind unit_count : List Nat) (is_artefact : List Bool)
    (max_move_amount : Nat) : List Nat :=
  (List.range edgeList.length).flatMap
    (moveBlock turn req_kind unit_owner unit_kind unit_count is_artefact
      max_move_amount)

/-- The source's `generate_legal_action_indices_inner`.  State codes:
0 = GameOver, 1 = ChooseSatellite, 2 = ChooseDirection, 3 = PerformActions.
Action type codes: 1 = add_tank, 2 = add_bot, 3 = move_tank, 4 = move_bot.
The branch bodies are the named loop functions above. -/
def generate_legal_action_indices_inner
    (state_code action_type_code : Nat) (turn : Int)
    (sat_charges : List Nat)
    (unit_owner : List Int) (unit_kind unit_count : List Nat)
    (is_artefact is_p0_start is_p1_start : List Bool)
    (max_move_amount : Nat) : Except String (List Nat) :=
  if unit_kind.length ≠ unit_owner.length ∨ unit_count.length ≠ unit_owner.length ∨
      is_artefact.length ≠ unit_owner.length ∨ is_p0_start.length ≠ unit_owner.length ∨
      is_p1_start.length ≠ unit_owner.length then
    .error "All board arrays must have the same length"
  else if max_move_amount = 0 then .ok []
  else if state_code = 0 then .ok []
  else if state_code = 1 then .ok (legalSatChoices sat_charges)
  else if state_code = 2 then .ok [6, 7]
  else if state_code ≠ 3 then .ok []
  else if action_type_code = 1 ∨ action_type_code = 2 then
    if 20 ≤ ownerTotal unit_owner unit_count turn then .ok []
    else if action_type_code = 1 then
      .ok (legalAddTank turn unit_owner unit_kind is_artefact is_p0_start is_p1_start)
    else
      .ok (legalAddBot turn unit_owner unit_kind is_p0_start is_p1_start)
  else if action_type_code = 3 ∨ action_type_code = 4 then
    if neighborsByCellId.length ≠ unit_owner.length then
      .error "Input array length does not match board topology"
    else
      .ok (legalMoves turn (if action_type_code = 3 then 2 else 1) unit_owner unit_kind
        unit_count is_artefact max_move_amount)
  else .ok []

/-- The body of `generate_move_actions`' inner loop over one neighbour
`eid` of the source cell `sid` (the `for &eid in neighbors_by_cell_id[sid]`
body). -/
def movegenEdge (turn : Int) (req_kind : Nat) (unit_owner : List Int)
    (unit_kind unit_count : List Nat) (is_artefact : List Bool)
    (sid eid : Nat) : List (Nat × Nat × Nat) :=
  if eid = (if turn = 0 then 83 else 3) ∨ eid = (if turn = 0 then 84 else 4) then []
  else if req_kind = 2 ∧ is_artefact.getD eid false = true then []
  else
    let sc := unit_count.getD sid 0
    let tow := unit_owner.getD eid (-1)
    let tk := unit_kind.getD eid 0
    let tc := unit_count.getD eid 0
    if tow = -1 then
      (List.range' 1 sc).map (fun amount => (sid, eid, amount))
    else if tow = turn then
      (if tk = req_kind then
        (List.range' 1 sc).map (fun amount => (sid, eid, amount))
      else [])
    else if req_kind = 1 then []
    else if tk = 1 then
      (List.range' 1 sc).map (fun amount => (sid, eid, amount))
    else if tk = 2 ∧ tc < sc then
      (List.range' (tc + 1) (sc - tc)).map (fun amount => (sid, eid, amount))
    else []

/-- The body of `generate_move_actions`' outer loop over the source cell
`sid`: the source-cell validity gate, then the neighbour loop. -/
def movegenCell (turn : Int) (req_kind : Nat) (unit_owner : List Int)
    (unit_kind unit_count : List Nat) (is_artefact : List Bool)
    (sid : Nat) : List (Nat × Nat × Nat) :=
  if unit_owner.getD sid (-1) ≠ turn ∨ unit_kind.getD sid 0 ≠ req_kind then []
  else if unit_count.getD sid 0 = 0 then []
  else
    (neighborsByCellId.getD sid []).flatMap
      (movegenEdge turn req_kind unit_owner unit_kind unit_count is_artefact sid)

/-- The source's `generate_move_actions`: the secondary, non-index-encoded
move enumerator returning `(src, dest, amount)` triples; the loop bodies
are the named functions above. -/
def generate_move_actions (unit_owner : List Int) (unit_kind unit_count : List Nat)
    (turn : Int) (req_kind : Nat) (is_artefact : List Bool) :
    Except String (List (Nat × Nat × Nat)) :=
  let n := unit_owner.length
  if unit_kind.length ≠ n ∨ unit_count.length ≠ n ∨ is_artefact.length ≠ n then
    .error "All input arrays must have the same length"
  else if req_kind ≠ 1 ∧ req_kind ≠ 2 then
    .error "req_kind must be 1 (bot) or 2 (tank)"
  else if neighborsByCellId.length ≠ n then
    .error "Input array length does not match board topology"
  else
    .ok ((List.range n).flatMap
      (movegenCell turn req_kind unit_owner unit_kind unit_count is_artefact))

/-- The mutable game aggregate (source: `struct NativeSatGame`); the
`scores: [i16; 2]` array is split into `score0`/`score1`. -/
structure NativeSatGame where
  unit_owner : List Int
  unit_kind : List Nat
  unit_count : List Nat
  is_artefact : List Bool
  is_p0_start : List Bool
  is_p1_start : List Bool
  sat_type_codes : List Nat
  sat_charges : List Nat
  turn : Nat
  score0 : Int
  score1 : Int
  state_code : Nat
  active_satellite_idx : Int
  actions_remaining : Int
  picked_up_charges : Int
  action_type_code : Nat
  turn_count : Int
  max_turns : Int
  winner : Int
deriving Repr, DecidableEq

/-- `self.scores[self.turn as usize]` (Rust panics when `turn ≥ 2`; all
theorems reading scores assume `turn ≤ 1`). -/
def scoreOfTurn (g : NativeSatGame) : Int := if g.turn = 0 then g.score0 else g.score1

/-- Writing `self.scores[self.turn as usize]`. -/
def setScoreOfTurn (g : NativeSatGame) (v : Int) : NativeSatGame :=
  if g.turn = 0 then { g with score0 := v } else { g with score1 := v }

/-- The source's `NativeSatGame::new` constructor: only the two satellite
arrays have their lengths validated. -/
def NativeSatGame.new (unit_owner : List Int) (unit_kind unit_count : List Nat)
    (is_artefact is_p0_start is_p1_start : List Bool)
    (sat_type_codes sat_charges : List Nat)
    (turn : Nat) (score0 score1 : Int) (state_code : Nat)
    (active_satellite_idx actions_remaining picked_up_charges : Int)
    (action_type_code : Nat) (turn_count max_turns winner : Int) :
    Except String NativeSatGame :=
  if sat_type_codes.length ≠ 6 ∨ sat_charges.length ≠ 6 then
    .error "sat_type_codes and sat_charges must have length 6"
  else
    .ok { unit_owner := unit_owner, unit_kind := unit_kind, unit_count := unit_count,
          is_artefact := is_artefact, is_p0_start := is_p0_start,
          is_p1_start := is_p1_start, sat_type_codes := sat_type_codes,
          sat_charges := sat_charges, turn := turn, score0 := score0,
          score1 := score1, state_code := state_code,
          active_satellite_idx := active_satellite_idx,
          actions_remaining := actions_remaining,
          picked_up_charges := picked_up_charges,
          action_type_code := action_type_code, turn_count := turn_count,
          max_turns := max_turns, winner := winner }

/-- `NativeSatGame::legal_action_indices`. -/
def NativeSatGame.legal_action_indices (g : NativeSatGame) (max_move_amount : Nat) :
    Except String (List Nat) :=
  generate_legal_action_indices_inner g.state_code g.action_type_code (toI8 g.turn)
    g.sat_charges g.unit_owner g.unit_kind g.unit_count g.is_artefact g.is_p0_start
    g.is_p1_start max_move_amount

/-- The source's `apply_add` (returns the success flag together with the
resulting state; the source mutates `&mut self`). -/
def apply_add (g : NativeSatGame) (cid : Nat) : Bool × NativeSatGame :=
  if g.unit_owner.length ≤ cid then (false, g)
  else
    let turn := toI8 g.turn
    if 20 ≤ ownerTotal g.unit_owner g.unit_count turn then (false, g)
    else if g.action_type_code = 1 then
      let opp_st := if g.turn = 0 then g.is_p1_start else g.is_p0_start
      if g.is_artefact.getD cid false = true ∨ opp_st.getD cid false = true then (false, g)
      else if g.unit_owner.getD cid (-1) = -1 then
        (true, { g with unit_owner := g.unit_owner.set cid turn,
                        unit_kind := g.unit_kind.set cid 2,
                        unit_count := g.unit_count.set cid 1 })
      else if g.unit_owner.getD cid (-1) = turn ∧ g.unit_kind.getD cid 0 = 2 then
        (true, { g with unit_count :=
            g.unit_count.set cid (satAdd8 (g.unit_count.getD cid 0) 1) })
      else (false, g)
    else if g.action_type_code = 2 then
      let own_st := if g.turn = 0 then g.is_p0_start else g.is_p1_start
      if g.unit_owner.getD cid (-1) = turn ∧ g.unit_kind.getD cid 0 = 1 then
        (true, { g with unit_count :=
            g.unit_count.set cid (satAdd8 (g.unit_count.getD cid 0) 1) })
      else if g.unit_owner.getD cid (-1) = -1 ∧ own_st.getD cid false = true then
        (true, { g with unit_owner := g.unit_owner.set cid turn,
                        unit_kind := g.unit_kind.set cid 1,
                        unit_count := g.unit_count.set cid 1 })
      else (false, g)
    else (false, g)

/-- The legality predicate of `apply_move`: the conjunction of the
negations of the source's eight early-return reject conditions (bounds
and non-zero amount; source owned by mover with the requested kind;
amount within the source stack; destination not one of the two fixed
opponent-start cells; no tank onto an artefact; own-destination kind
match; bots cannot attack; tank-vs-tank strict overkill). -/
def moveApplyOk (g : NativeSatGame) (sid eid amount : Nat) : Prop :=
  sid < g.unit_owner.length ∧ eid < g.unit_owner.length ∧ 1 ≤ amount ∧
  g.unit_owner.getD sid (-1) = toI8 g.turn ∧
  g.unit_kind.getD sid 0 = (if g.action_type_code = 3 then 2 else 1) ∧
  amount ≤ g.unit_count.getD sid 0 ∧
  eid ≠ (if g.turn = 0 then 83 else 3) ∧ eid ≠ (if g.turn = 0 then 84 else 4) ∧
  ¬ ((if g.action_type_code = 3 then (2 : Nat) else 1) = 2 ∧
     g.is_artefact.getD eid false = true) ∧
  ¬ (g.unit_owner.getD eid (-1) = toI8 g.turn ∧
     g.unit_kind.getD eid 0 ≠ (if g.action_type_code = 3 then 2 else 1)) ∧
  ¬ (g.unit_owner.getD eid (-1) ≠ toI8 g.turn ∧ g.unit_owner.getD eid (-1) ≠ -1 ∧
     (if g.action_type_code = 3 then (2 : Nat) else 1) = 1) ∧
  ¬ (g.unit_owner.getD eid (-1) ≠ toI8 g.turn ∧ g.unit_owner.getD eid (-1) ≠ -1 ∧
     g.unit_kind.getD eid 0 = 2 ∧ amount ≤ g.unit_count.getD eid 0)

instance (g : NativeSatGame) (sid eid amount : Nat) :
    Decidable (moveApplyOk g sid eid amount) := by
  unfold moveApplyOk; infer_instance

/-- The execute section of `apply_move`: first update the source, then
resolve the destination on the intermediate state `g1`, then the artefact
capture check, exactly as the sequential mutations of the source do. -/
def move_execute (g : NativeSatGame) (sid eid : Nat) (amount : Nat) : NativeSatGame :=
  let turn := toI8 g.turn
  let req_kind : Nat := if g.action_type_code = 3 then 2 else 1
  let target_owner := g.unit_owner.getD eid (-1)
  let c1 := g.unit_count.getD sid 0 - amount
  let g1 :=
    if c1 = 0 then
      { g with unit_count := g.unit_count.set sid 0,
               unit_owner := g.unit_owner.set sid (-1),
               unit_kind := g.unit_kind.set sid 0 }
    else { g with unit_count := g.unit_count.set sid c1 }
  let p2 : Bool × NativeSatGame :=
    if target_owner = -1 then
      (true, { g1 with unit_owner := g1.unit_owner.set eid turn,
                       unit_kind := g1.unit_kind.set eid req_kind,
                       unit_count := g1.unit_count.set eid amount })
    else if target_owner = turn then
      (true, { g1 with unit_count :=
          g1.unit_count.set eid (satAdd8 (g1.unit_count.getD eid 0) amount) })
    else
      let g2 := { g1 with unit_owner := g1.unit_owner.set eid (-1),
                          unit_kind := g1.unit_kind.set eid 0,
                          unit_count := g1.unit_count.set eid 0 }
      if req_kind = 2 then
        (false,
          if g2.unit_owner.getD sid (-1) = -1 then
            { g2 with unit_owner := g2.unit_owner.set sid turn,
                      unit_kind := g2.unit_kind.set sid req_kind,
                      unit_count := g2.unit_count.set sid amount }
          else
            { g2 with unit_count :=
                g2.unit_count.set sid (satAdd8 (g2.unit_count.getD sid 0) amount) })
      else
        (true, { g2 with unit_owner := g2.unit_owner.set eid turn,
                         unit_kind := g2.unit_kind.set eid req_kind,
                         unit_count := g2.unit_count.set eid amount })
  let g3 := p2.2
  if p2.1 = true ∧ g3.is_artefact.getD eid false = true then
    setScoreOfTurn { g3 with is_artefact := g3.is_artefact.set eid false }
      (wrap16 (scoreOfTurn g3 + (amount : Int)))
  else g3

/-- The source's `apply_move` (sid = source cell, eid = destination
cell): the early-return reject chain, then the execute section. -/
def apply_move (g : NativeSatGame) (sid eid : Nat) (amount : Nat) : Bool × NativeSatGame :=
  if g.unit_owner.length ≤ sid ∨ g.unit_owner.length ≤ eid ∨ amount = 0 then (false, g)
  else if g.unit_owner.getD sid (-1) ≠ toI8 g.turn ∨
      g.unit_kind.getD sid 0 ≠ (if g.action_type_code = 3 then 2 else 1) then (false, g)
  else if g.unit_count.getD sid 0 < amount then (false, g)
  else if eid = (if g.turn = 0 then 83 else 3) ∨ eid = (if g.turn = 0 then 84 else 4) then
    (false, g)
  else if (if g.action_type_code = 3 then (2 : Nat) else 1) = 2 ∧
      g.is_artefact.getD eid false = true then (false, g)
  else if g.unit_owner.getD eid (-1) = toI8 g.turn ∧
      g.unit_kind.getD eid 0 ≠ (if g.action_type_code = 3 then 2 else 1) then (false, g)
  else if g.unit_owner.getD eid (-1) ≠ toI8 g.turn ∧ g.unit_owner.getD eid (-1) ≠ -1 ∧
      (if g.action_type_code = 3 then (2 : Nat) else 1) = 1 then (false, g)
  else if g.unit_owner.getD eid (-1) ≠ toI8 g.turn ∧ g.unit_owner.getD eid (-1) ≠ -1 ∧
      g.unit_kind.getD eid 0 = 2 ∧ amount ≤ g.unit_count.getD eid 0 then (false, g)
  else (true, move_execute g sid eid amount)

/-- The source's `check_win` (evaluated after every successful
PerformActions mutation). -/
def check_win (g : NativeSatGame) : Bool × NativeSatGame :=
  if 9 ≤ scoreOfTurn g then
    (true, { g with winner := toI8 g.turn, state_code := 0 })
  else if g.is_artefact.count true = 0 then
    let w : Int :=
      if g.score1 < g.score0 then 0
      else if g.score0 < g.score1 then 1
      else toI8 g.turn
    (true, { g with winner := w, state_code := 0 })
  else (false, g)

/-- The source's `end_turn`.  The turn flip `1 - self.turn` is a `u8`
subtraction, wrapping in release builds; all theorems touching it carry
`turn ≤ 1`, where no wrap occurs. -/
def end_turn (g : NativeSatGame) : NativeSatGame :=
  if g.max_turns ≤ g.turn_count then
    { g with state_code := 0,
             winner := if g.score1 < g.score0 then 0
                       else if g.score0 < g.score1 then 1
                       else -1 }
  else
    let t := (((1 - (g.turn : Int)) % 256).toNat)
    { g with turn := t,
             turn_count := if t = 0 then wrap16 (g.turn_count + 1) else g.turn_count,
             state_code := 1,
             active_satellite_idx := -1,
             action_type_code := 0,
             actions_remaining := 0,
             picked_up_charges := 0 }

/-- The charge-distribution loop of the ChooseDirection branch: each step
advances the ring index by `dir` (mod 6, the source uses
`(idx + dir + 6) % 6` which is non-negative for ring indices ≥ -5, where
Rust's truncating `%` agrees with `Int.emod`) and saturatingly increments
that slot's charge. -/
def distribute_charges (charges : List Nat) (idx dir : Int) : Nat → List Nat × Int
  | 0 => (charges, idx)
  | Nat.succ k =>
    let idx2 := (idx + dir + 6) % 6
    distribute_charges (charges.set idx2.toNat (satAdd8 (charges.getD idx2.toNat 0) 1))
      idx2 dir k

/-- ChooseSatellite branch of `apply_action_index` (state code 1): pick a
charged slot, derive the action type from the slot type, pick up its
charge and move to ChooseDirection. -/
def choose_satellite_step (g : NativeSatGame) (action_index : Nat) :
    Bool × NativeSatGame :=
  if 6 ≤ action_index then (false, g)
  else if g.sat_charges.getD action_index 0 = 0 then (false, g)
  else
    (true, { g with
      active_satellite_idx := (action_index : Int),
      action_type_code :=
        (match g.sat_type_codes.getD action_index 0 with
          | 0 => 3
          | 1 => 4
          | 2 => 1
          | 3 => 2
          | _ => 0),
      picked_up_charges := (g.sat_charges.getD action_index 0 : Int),
      sat_charges := g.sat_charges.set action_index 0,
      state_code := 2 })

/-- ChooseDirection branch of `apply_action_index` (state code 2):
distribute the picked-up charges around the ring, then either enter
PerformActions or end the turn when nothing is legal. -/
def choose_direction_step (g : NativeSatGame) (action_index max_move_amount : Nat) :
    Except String (Bool × NativeSatGame) :=
  if action_index ≠ 6 ∧ action_index ≠ 7 then .ok (false, g)
  else
    let dir : Int := if action_index = 7 then 1 else -1
    let dc := distribute_charges g.sat_charges g.active_satellite_idx dir
      g.picked_up_charges.toNat
    let g2 := { g with sat_charges := dc.1 }
    match generate_legal_action_indices_inner 3 g2.action_type_code (toI8 g2.turn)
        g2.sat_charges g2.unit_owner g2.unit_kind g2.unit_count g2.is_artefact
        g2.is_p0_start g2.is_p1_start max_move_amount with
    | .error e => .error e
    | .ok legal =>
      if legal.isEmpty then .ok (true, end_turn g2)
      else .ok (true, { g2 with actions_remaining := g2.picked_up_charges,
                                state_code := 3 })

/-- The PerformActions mutation dispatch of `apply_action_index`: range
check on the action index for the current action type, then `apply_add`
or `apply_move` (with the source's edge-ordinal decode loop realised as
an `edgeList` lookup). -/
def perform_step (g : NativeSatGame) (action_index max_move_amount : Nat) :
    Bool × NativeSatGame :=
  if g.action_type_code = 1 ∨ g.action_type_code = 2 then
    if 8 ≤ action_index ∧ action_index < 8 + g.unit_owner.length then
      apply_add g (action_index - 8)
    else (false, g)
  else if g.action_type_code = 3 ∨ g.action_type_code = 4 then
    if 8 + g.unit_owner.length ≤ action_index ∧
        action_index < 8 + g.unit_owner.length +
          (neighborsByCellId.map List.length).sum * max_move_amount then
      if (action_index - (8 + g.unit_owner.length)) / max_move_amount <
          edgeList.length then
        apply_move g
          ((edgeList.getD ((action_index - (8 + g.unit_owner.length)) / max_move_amount)
            (0, 0)).1)
          ((edgeList.getD ((action_index - (8 + g.unit_owner.length)) / max_move_amount)
            (0, 0)).2)
          ((action_index - (8 + g.unit_owner.length)) % max_move_amount + 1)
      else (false, g)
    else (false, g)
  else (false, g)

/-- The tail of a successful PerformActions mutation: win check, then
decrement `actions_remaining`, ending the turn at 0 or when no legal
action remains. -/
def after_success (g3 : NativeSatGame) (max_move_amount : Nat) :
    Except String (Bool × NativeSatGame) :=
  if (check_win g3).1 = true then .ok (true, (check_win g3).2)
  else
    let g4 := { g3 with actions_remaining := wrap16 (g3.actions_remaining - 1) }
    if g4.actions_remaining ≤ 0 then .ok (true, end_turn g4)
    else
      match generate_legal_action_indices_inner 3 g4.action_type_code (toI8 g4.turn)
          g4.sat_charges g4.unit_owner g4.unit_kind g4.unit_count g4.is_artefact
          g4.is_p0_start g4.is_p1_start max_move_amount with
      | .error e => .error e
      | .ok legal =>
        if legal.isEmpty then .ok (true, end_turn g4)
        else .ok (true, g4)

/-- The source's `apply_action_index`: the single mutation entry point of
the turn state machine.  Returns the success flag and the resulting
state; `Except` models the `PyResult` error that the internal enumerator
calls can raise on array-length mismatches.  (`check_win g3` leaves the
state unchanged when its flag is false, so using `g3` directly afterwards
matches the source.) -/
def apply_action_index (g : NativeSatGame) (action_index max_move_amount : Nat) :
    Except String (Bool × NativeSatGame) :=
  if max_move_amount = 0 ∨ g.state_code = 0 then .ok (false, g)
  else if g.state_code = 1 then .ok (choose_satellite_step g action_index)
  else if g.state_code = 2 then choose_direction_step g action_index max_move_amount
  else if g.state_code ≠ 3 then .ok (false, g)
  else
    if (perform_step g action_index max_move_amount).1 = false then
      .ok (false, (perform_step g action_index max_move_amount).2)
    else after_success (perform_step g action_index max_move_amount).2 max_move_amount

/-- Decidable equality for `Except`, used to evaluate the embedding on
concrete inputs. -/
instance instDecEqExceptSat {ε α : Type} [DecidableEq ε] [DecidableEq α] :
    DecidableEq (Except ε α) := fun a b =>
  match a, b with
  | .error e1, .error e2 =>
    if h : e1 = e2 then .isTrue (by rw [h]) else .isFalse (by simp [h])
  | .error _, .ok _ => .isFalse (by simp)
  | .ok _, .error _ => .isFalse (by simp)
  | .ok v1, .ok v2 =>
    if h : v1 = v2 then .isTrue (by rw [h]) else .isFalse (by simp [h])

/-! ## Well-formedness predicates -/

/-- The spec's per-cell invariant: `owner = none` exactly when `count = 0`,
and an occupied cell has a real kind. -/
def cellInvariant (g : NativeSatGame) : Prop :=
  ∀ i < g.unit_owner.length,
    (g.unit_owner.getD i (-1) = -1 ↔ g.unit_count.getD i 0 = 0) ∧
    (0 < g.unit_count.getD i 0 → g.unit_kind.getD i 0 ≠ 0)

/-- All six per-cell arrays have the board length. -/
def boardLengthsOk (g : NativeSatGame) : Prop :=
  g.unit_owner.length = numCells ∧ g.unit_kind.length = numCells ∧
  g.unit_count.length = numCells ∧ g.is_artefact.length = numCells ∧
  g.is_p0_start.length = numCells ∧ g.is_p1_start.length = numCells

/-- Field ranges guaranteed by the Rust types and the constructor:
satellite arrays of length 6, `turn` a player id, kinds in `{0, 1, 2}`
(`u8` codes none/bot/tank), counts within `u8`, and the active-satellite
index in `[-1, 5]` (`-1` is the source's none sentinel). -/
def rangesOk (g : NativeSatGame) : Prop :=
  g.sat_type_codes.length = 6 ∧ g.sat_charges.length = 6 ∧ g.turn ≤ 1 ∧
  (∀ i < g.unit_kind.length, g.unit_kind.getD i 0 ≤ 2) ∧
  (∀ i < g.unit_count.length, g.unit_count.getD i 0 ≤ 255) ∧
  -1 ≤ g.active_satellite_idx ∧ g.active_satellite_idx ≤ 5

/-- No cell owned by the current mover with a tank is an artefact cell or
flagged as the opponent's start: such cells cannot arise in play (tanks
may never enter artefact hexes and adds reject both), but a directly
constructed state may violate this, and then the enumerator and
`apply_add` disagree. -/
def noMoverTankOnForbidden (g : NativeSatGame) : Prop :=
  ∀ i < g.unit_owner.length,
    g.unit_owner.getD i (-1) = toI8 g.turn ∧ g.unit_kind.getD i 0 = 2 →
      g.is_artefact.getD i false = false ∧
      (if g.turn = 0 then g.is_p1_start else g.is_p0_start).getD i false = false

/-- Well-formed game state: array lengths, Rust type ranges, the spec's
cell invariant, and no mover-owned tank on a forbidden cell. -/
def WF (g : NativeSatGame) : Prop :=
  boardLengthsOk g ∧ rangesOk g ∧ cellInvariant g ∧ noMoverTankOnForbidden g

instance (g : NativeSatGame) : Decidable (cellInvariant g) := by
  unfold cellInvariant; infer_instance

instance (g : NativeSatGame) : Decidable (boardLengthsOk g) := by
  unfold boardLengthsOk; infer_instance

instance (g : NativeSatGame) : Decidable (rangesOk g) := by
  unfold rangesOk; infer_instance

instance (g : NativeSatGame) : Decidable (noMoverTankOnForbidden g) := by
  unfold noMoverTankOnForbidden; infer_instance

instance (g : NativeSatGame) : Decidable (WF g) := by
  unfold WF; infer_instance

/-- A state at the army cap, used as a concrete witness: the mover owns a
single stack of 20 tanks, phase PerformActions with action type add_tank. -/
def capState : NativeSatGame :=
  { unit_owner := (List.replicate 88 (-1)).set 0 0,
    unit_kind := (List.replicate 88 0).set 0 2,
    unit_count := (List.replicate 88 0).set 0 20,
    is_artefact := (List.replicate 88 false).set 40 true,
    is_p0_start := ((List.replicate 88 false).set 3 true).set 4 true,
    is_p1_start := ((List.replicate 88 false).set 83 true).set 84 true,
    sat_type_codes := [0, 1, 2, 3, 0, 1], sat_charges := [0, 0, 0, 0, 0, 0],
    turn := 0, score0 := 0, score1 := 0, state_code := 3,
    active_satellite_idx := 2, actions_remaining := 2, picked_up_charges := 3,
    action_type_code := 1, turn_count := 0, max_turns := 40, winner := -1 }

/-- The five mutual length checks at the top of the enumerator (and, for
its first three conjuncts, of `generate_move_actions`). -/
def boardArgsOk (unit_owner : List Int) (unit_kind unit_count : List Nat)
    (is_artefact is_p0_start is_p1_start : List Bool) : Prop :=
  unit_kind.length = unit_owner.length ∧ unit_count.length = unit_owner.length ∧
  is_artefact.length = unit_owner.length ∧ is_p0_start.length = unit_owner.length ∧
  is_p1_start.length = unit_owner.length

instance (unit_owner : List Int) (unit_kind unit_count : List Nat)
    (is_artefact is_p0_start is_p1_start : List Bool) :
    Decidable (boardArgsOk unit_owner unit_kind unit_count is_artefact
      is_p0_start is_p1_start) := by
  unfold boardArgsOk; infer_instance

/-- A capture state whose mover score sits at the i16 maximum: applying
the artefact capture wraps the score (release-build Rust semantics). -/
def wrapState : NativeSatGame :=
  { unit_owner := (List.replicate 88 (-1)).set 0 0,
    unit_kind := (List.replicate 88 0).set 0 1,
    unit_count := (List.replicate 88 0).set 0 1,
    is_artefact := (List.replicate 88 false).set 1 true,
    is_p0_start := ((List.replicate 88 false).set 3 true).set 4 true,
    is_p1_start := ((List.replicate 88 false).set 83 true).set 84 true,
    sat_type_codes := [0, 1, 2, 3, 0, 1], sat_charges := [0, 0, 0, 0, 0, 0],
    turn := 0, score0 := 32767, score1 := 0, state_code := 3,
    active_satellite_idx := 1, actions_remaining := 2, picked_up_charges := 3,
    action_type_code := 4, turn_count := 0, max_turns := 40, winner := -1 }

/-- A small capture state (mover bot stack of 2 next to an artefact) used
as a concrete witness for the artefact-capture semantics. -/
def captureState : NativeSatGame :=
  { wrapState with unit_count := (List.replicate 88 0).set 0 2, score0 := 0 }

/-- A tank-vs-tank state with the defending stack on an artefact cell:
mover 0 owns 3 tanks on cell 0, the opponent 1 tank on the artefact
cell 1. -/
def tankArtState : NativeSatGame :=
  { unit_owner := ((List.replicate 88 (-1)).set 0 0).set 1 1,
    unit_kind := ((List.replicate 88 0).set 0 2).set 1 2,
    unit_count := ((List.replicate 88 0).set 0 3).set 1 1,
    is_artefact := (List.replicate 88 false).set 1 true,
    is_p0_start := ((List.replicate 88 false).set 3 true).set 4 true,
    is_p1_start := ((List.replicate 88 false).set 83 true).set 84 true,
    sat_type_codes := [0, 1, 2, 3, 0, 1], sat_charges := [0, 0, 0, 0, 0, 0],
    turn := 0, score0 := 0, score1 := 0, state_code := 3,
    active_satellite_idx := 0, actions_remaining := 2, picked_up_charges := 3,
    action_type_code := 3, turn_count := 0, max_turns := 40, winner := -1 }

/-- A plain tank-vs-tank state (no artefact involved): mover 0 owns 3
tanks on cell 0, the opponent 1 tank on cell 1. -/
def tankTankState : NativeSatGame :=
  { tankArtState with is_artefact := (List.replicate 88 false).set 40 true }

/-- An empty, well-formed baseline state: canonical start flags (cells 3, 4
for player0 and 83, 84 for player1), one artefact, empty board, phase
ChooseSatellite. Concrete witnesses below are variations of it. -/
def baseState : NativeSatGame :=
  { unit_owner := List.replicate 88 (-1), unit_kind := List.replicate 88 0,
    unit_count := List.replicate 88 0,
    is_artefact := (List.replicate 88 false).set 40 true,
    is_p0_start := ((List.replicate 88 false).set 3 true).set 4 true,
    is_p1_start := ((List.replicate 88 false).set 83 true).set 84 true,
    sat_type_codes := [0, 1, 2, 3, 0, 1], sat_charges := [0, 0, 3, 0, 0, 0],
    turn := 0, score0 := 0, score1 := 0, state_code := 1,
    active_satellite_idx := -1, actions_remaining := 0, picked_up_charges := 0,
    action_type_code := 0, turn_count := 0, max_turns := 40, winner := -1 }

/-- A concrete ChooseSatellite transition result used to evaluate the
invariant-preservation theorem: picking the charged slot 2 from
`baseState`. -/
def c8State : NativeSatGame :=
  { baseState with
    active_satellite_idx := 2, action_type_code := 1,
    picked_up_charges := 3, sat_charges := [0, 0, 0, 0, 0, 0], state_code := 2 }

/-- C1 counterexample state: PerformActions with action type add_tank and
a mover-owned tank standing on the still-flagged artefact cell 40 (the
constructor accepts such arrays; every other well-formedness condition
holds). -/
def gC1 : NativeSatGame :=
  { baseState with
    unit_owner := (List.replicate 88 (-1)).set 40 0,
    unit_kind := (List.replicate 88 0).set 40 2,
    unit_count := (List.replicate 88 0).set 40 1,
    state_code := 3, action_type_code := 1 }

/-- The enumerator output at `gC1` (the add_tank scan). -/
def gC1Legal : List Nat :=
  legalAddTank (toI8 gC1.turn) gC1.unit_owner gC1.unit_kind gC1.is_artefact
    gC1.is_p0_start gC1.is_p1_start

end Satellites

namespace Satellites

set_option maxRecDepth 8000

/-! ## Board topology facts -/

theorem numCells_eq : numCells = 88 := by decide

theorem neighborsByCellId_length : neighborsByCellId.length = numCells := by decide

theorem edgeList_length_eq : (neighborsByCellId.map List.length).sum = edgeList.length := by
  decide

theorem edgeList_facts : ∀ p ∈ edgeList, p.1 < numCells ∧ p.2 < numCells ∧ p.1 ≠ p.2 := by
  decide

/-! ## Small arithmetic helpers -/

theorem toI8_small (n : Nat) (h : n ≤ 1) : toI8 n = (n : Int) := by
  interval_cases n <;> rfl

/-- `filterMap` over `List.range` with values of the form `c + i` is
strictly sorted. -/
theorem sorted_filterMap_range (n c : Nat) (f : Nat → Option Nat)
    (hf : ∀ i x, f i = some x → x = c + i) :
    ((List.range n).filterMap f).Sorted (fun a b => a < b) := by
  rw [List.Sorted, List.pairwise_filterMap]
  have h0 : List.Pairwise (fun a b => a < b) (List.range n) := List.pairwise_lt_range n
  refine h0.imp_of_mem ?_
  intro a b _ _ hab x hx y hy
  rcases Option.mem_def.mp hx with hx'
  rcases Option.mem_def.mp hy with hy'
  rw [hf a x hx', hf b y hy']
  omega

/-! ## Branch equations of the enumerator -/

section EnumeratorBranches

variable (state_code action_type_code : Nat) (turn : Int) (sat_charges : List Nat)
  (unit_owner : List Int) (unit_kind unit_count : List Nat)
  (is_artefact is_p0_start is_p1_start : List Bool) (max_move_amount : Nat)

theorem legal_inner_mzero
    (h : boardArgsOk unit_owner unit_kind unit_count is_artefact is_p0_start is_p1_start) :
    generate_legal_action_indices_inner state_code action_type_code turn sat_charges
      unit_owner unit_kind unit_count is_artefact is_p0_start is_p1_start 0 = .ok [] := by
  obtain ⟨h1, h2, h3, h4, h5⟩ := h
  unfold generate_legal_action_indices_inner
  rw [if_neg (by push_neg; exact ⟨h1, h2, h3, h4, h5⟩), if_pos rfl]

theorem legal_inner_s0
    (h : boardArgsOk unit_owner unit_kind unit_count is_artefact is_p0_start is_p1_start)
    (hM : max_move_amount ≠ 0) :
    generate_legal_action_indices_inner 0 action_type_code turn sat_charges
      unit_owner unit_kind unit_count is_artefact is_p0_start is_p1_start
      max_move_amount = .ok [] := by
  obtain ⟨h1, h2, h3, h4, h5⟩ := h
  unfold generate_legal_action_indices_inner
  rw [if_neg (by push_neg; exact ⟨h1, h2, h3, h4, h5⟩), if_neg hM, if_pos rfl]

theorem legal_inner_s1
    (h : boardArgsOk unit_owner unit_kind unit_count is_artefact is_p0_start is_p1_start)
    (hM : max_move_amount ≠ 0) :
    generate_legal_action_indices_inner 1 action_type_code turn sat_charges
      unit_owner unit_kind unit_count is_artefact is_p0_start is_p1_start
      max_move_amount = .ok (legalSatChoices sat_charges) := by
  obtain ⟨h1, h2, h3, h4, h5⟩ := h
  unfold generate_legal_action_indices_inner
  rw [if_neg (by push_neg; exact ⟨h1, h2, h3, h4, h5⟩), if_neg hM,
    if_neg (by omega : ¬ (1 : Nat) = 0), if_pos rfl]

theorem legal_inner_s2
    (h : boardArgsOk unit_owner unit_kind unit_count is_artefact is_p0_start is_p1_start)
    (hM : max_move_amount ≠ 0) :
    generate_legal_action_indices_inner 2 action_type_code turn sat_charges
      unit_owner unit_kind unit_count is_artefact is_p0_start is_p1_start
      max_move_amount = .ok [6, 7] := by
  obtain ⟨h1, h2, h3, h4, h5⟩ := h
  unfold generate_legal_action_indices_inner
  rw [if_neg (by push_neg; exact ⟨h1, h2, h3, h4, h5⟩), if_neg hM,
    if_neg (by omega : ¬ (2 : Nat) = 0), if_neg (by omega : ¬ (2 : Nat) = 1), if_pos rfl]

theorem legal_inner_s_other
    (h : boardArgsOk unit_owner unit_kind unit_count is_artefact is_p0_start is_p1_start)
    (hM : max_move_amount ≠ 0) (hs0 : state_code ≠ 0) (hs1 : state_code ≠ 1)
    (hs2 : state_code ≠ 2) (hs3 : state_code ≠ 3) :
    generate_legal_action_indices_inner state_code action_type_code turn sat_charges
      unit_owner unit_kind unit_count is_artefact is_p0_start is_p1_start
      max_move_amount = .ok [] := by
  obtain ⟨h1, h2, h3, h4, h5⟩ := h
  unfold generate_legal_action_indices_inner
  rw [if_neg (by push_neg; exact ⟨h1, h2, h3, h4, h5⟩), if_neg hM, if_neg hs0,
    if_neg hs1, if_neg hs2, if_pos hs3]

theorem legal_inner_add_cap
    (h : boardArgsOk unit_owner unit_kind unit_count is_artefact is_p0_start is_p1_start)
    (hM : max_move_amount ≠ 0)
    (hat : action_type_code = 1 ∨ action_type_code = 2)
    (hcap : 20 ≤ ownerTotal unit_owner unit_count turn) :
    generate_legal_action_indices_inner 3 action_type_code turn sat_charges
      unit_owner unit_kind unit_count is_artefact is_p0_start is_p1_start
      max_move_amount = .ok [] := by
  obtain ⟨h1, h2, h3, h4, h5⟩ := h
  unfold generate_legal_action_indices_inner
  rw [if_neg (by push_neg; exact ⟨h1, h2, h3, h4, h5⟩), if_neg hM,
    if_neg (by omega : ¬ (3 : Nat) = 0), if_neg (by omega : ¬ (3 : Nat) = 1),
    if_neg (by omega : ¬ (3 : Nat) = 2), if_neg (by simp : ¬ (3 : Nat) ≠ 3),
    if_pos hat, if_pos hcap]

theorem legal_inner_add_tank
    (h : boardArgsOk unit_owner unit_kind unit_count is_artefact is_p0_start is_p1_start)
    (hM : max_move_amount ≠ 0)
    (hcap : ¬ 20 ≤ ownerTotal unit_owner unit_count turn) :
    generate_legal_action_indices_inner 3 1 turn sat_charges
      unit_owner unit_kind unit_count is_artefact is_p0_start is_p1_start
      max_move_amount =
      .ok (legalAddTank turn unit_owner unit_kind is_artefact is_p0_start is_p1_start) := by
  obtain ⟨h1, h2, h3, h4, h5⟩ := h
  unfold generate_legal_action_indices_inner
  rw [if_neg (by push_neg; exact ⟨h1, h2, h3, h4, h5⟩), if_neg hM,
    if_neg (by omega : ¬ (3 : Nat) = 0), if_neg (by omega : ¬ (3 : Nat) = 1),
    if_neg (by omega : ¬ (3 : Nat) = 2), if_neg (by simp : ¬ (3 : Nat) ≠ 3),
    if_pos (Or.inl rfl), if_neg hcap, if_pos rfl]

theorem legal_inner_add_bot
    (h : boardArgsOk unit_owner unit_kind unit_count is_artefact is_p0_start is_p1_start)
    (hM : max_move_amount ≠ 0)
    (hcap : ¬ 20 ≤ ownerTotal unit_owner unit_count turn) :
    generate_legal_action_indices_inner 3 2 turn sat_charges
      unit_owner unit_kind unit_count is_artefact is_p0_start is_p1_start
      max_move_amount =
      .ok (legalAddBot turn unit_owner unit_kind is_p0_start is_p1_start) := by
  obtain ⟨h1, h2, h3, h4, h5⟩ := h
  unfold generate_legal_action_indices_inner
  rw [if_neg (by push_neg; exact ⟨h1, h2, h3, h4, h5⟩), if_neg hM,
    if_neg (by omega : ¬ (3 : Nat) = 0), if_neg (by omega : ¬ (3 : Nat) = 1),
    if_neg (by omega : ¬ (3 : Nat) = 2), if_neg (by simp : ¬ (3 : Nat) ≠ 3),
    if_pos (Or.inr rfl), if_neg hcap, if_neg (by omega : ¬ (2 : Nat) = 1)]

theorem legal_inner_moves
    (h : boardArgsOk unit_owner unit_kind unit_count is_artefact is_p0_start is_p1_start)
    (hM : max_move_amount ≠ 0)
    (hat : action_type_code = 3 ∨ action_type_code = 4)
    (hnb : neighborsByCellId.length = unit_owner.length) :
    generate_legal_action_indices_inner 3 action_type_code turn sat_charges
      unit_owner unit_kind unit_count is_artefact is_p0_start is_p1_start
      max_move_amount =
      .ok (legalMoves turn (if action_type_code = 3 then 2 else 1) unit_owner unit_kind
        unit_count is_artefact max_move_amount) := by
  obtain ⟨h1, h2, h3, h4, h5⟩ := h
  unfold generate_legal_action_indices_inner
  rw [if_neg (by push_neg; exact ⟨h1, h2, h3, h4, h5⟩), if_neg hM,
    if_neg (by omega : ¬ (3 : Nat) = 0), if_neg (by omega : ¬ (3 : Nat) = 1),
    if_neg (by omega : ¬ (3 : Nat) = 2), if_neg (by simp : ¬ (3 : Nat) ≠ 3),
    if_neg (by omega : ¬ (action_type_code = 1 ∨ action_type_code = 2)),
    if_pos hat, if_neg (by omega : ¬ neighborsByCellId.length ≠ unit_owner.length)]

theorem legal_inner_moves_error
    (h : boardArgsOk unit_owner unit_kind unit_count is_artefact is_p0_start is_p1_start)
    (hM : max_move_amount ≠ 0)
    (hat : action_type_code = 3 ∨ action_type_code = 4)
    (hnb : neighborsByCellId.length ≠ unit_owner.length) :
    generate_legal_action_indices_inner 3 action_type_code turn sat_charges
      unit_owner unit_kind unit_count is_artefact is_p0_start is_p1_start
      max_move_amount = .error "Input array length does not match board topology" := by
  obtain ⟨h1, h2, h3, h4, h5⟩ := h
  unfold generate_legal_action_indices_inner
  rw [if_neg (by push_neg; exact ⟨h1, h2, h3, h4, h5⟩), if_neg hM,
    if_neg (by omega : ¬ (3 : Nat) = 0), if_neg (by omega : ¬ (3 : Nat) = 1),
    if_neg (by omega : ¬ (3 : Nat) = 2), if_neg (by simp : ¬ (3 : Nat) ≠ 3),
    if_neg (by omega : ¬ (action_type_code = 1 ∨ action_type_code = 2)),
    if_pos hat, if_pos hnb]

theorem legal_inner_atype_other
    (h : boardArgsOk unit_owner unit_kind unit_count is_artefact is_p0_start is_p1_start)
    (hM : max_move_amount ≠ 0)
    (ha12 : ¬ (action_type_code = 1 ∨ action_type_code = 2))
    (ha34 : ¬ (action_type_code = 3 ∨ action_type_code = 4)) :
    generate_legal_action_indices_inner 3 action_type_code turn sat_charges
      unit_owner unit_kind unit_count is_artefact is_p0_start is_p1_start
      max_move_amount = .ok [] := by
  obtain ⟨h1, h2, h3, h4, h5⟩ := h
  unfold generate_legal_action_indices_inner
  rw [if_neg (by push_neg; exact ⟨h1, h2, h3, h4, h5⟩), if_neg hM,
    if_neg (by omega : ¬ (3 : Nat) = 0), if_neg (by omega : ¬ (3 : Nat) = 1),
    if_neg (by omega : ¬ (3 : Nat) = 2), if_neg (by simp : ¬ (3 : Nat) ≠ 3),
    if_neg ha12, if_neg ha34]

theorem legal_inner_error
    (h : ¬ boardArgsOk unit_owner unit_kind unit_count is_artefact is_p0_start
      is_p1_start) :
    generate_legal_action_indices_inner state_code action_type_code turn sat_charges
      unit_owner unit_kind unit_count is_artefact is_p0_start is_p1_start
      max_move_amount = .error "All board arrays must have the same length" := by
  unfold generate_legal_action_indices_inner
  rw [if_pos (by unfold boardArgsOk at h; tauto)]

end EnumeratorBranches

/-- Strict sortedness of a flatMap of per-ordinal index blocks
`base + ord * M + (a - 1)` with amounts `1 ≤ a ≤ M`. -/
theorem sorted_flatMap_blocks (E M base : Nat) (f : Nat → List Nat)
    (hf : ∀ ord, ∀ x ∈ f ord, ∃ a, 1 ≤ a ∧ a ≤ M ∧ x = base + ord * M + (a - 1))
    (hsorted : ∀ ord, (f ord).Sorted (fun a b => a < b)) :
    ((List.range E).flatMap f).Sorted (fun a b => a < b) := by
  rw [List.Sorted, List.pairwise_flatMap]
  constructor
  · intro a _; exact hsorted a
  · refine (List.pairwise_lt_range E).imp_of_mem ?_
    intro o1 o2 _ _ h12 x hx y hy
    obtain ⟨a1, ha11, ha1M, rfl⟩ := hf o1 x hx
    obtain ⟨a2, ha21, ha2M, rfl⟩ := hf o2 y hy
    have hstep : (o1 + 1) * M ≤ o2 * M := Nat.mul_le_mul_right M h12
    have h1M : a1 - 1 < M := by omega
    calc base + o1 * M + (a1 - 1) < base + o1 * M + M := by omega
    _ = base + (o1 + 1) * M := by ring
    _ ≤ base + o2 * M := by omega
    _ ≤ base + o2 * M + (a2 - 1) := by omega

/-- The per-edge amount block of the move enumerator is strictly sorted. -/
theorem sorted_amount_block (c lo cnt : Nat) (hlo : 1 ≤ lo) :
    ((List.range' lo cnt).map (fun amount => c + (amount - 1))).Sorted
      (fun a b => a < b) := by
  rw [List.Sorted, List.pairwise_map]
  refine (List.pairwise_lt_range' lo cnt).imp_of_mem ?_
  intro a b ha hb hab
  have ha1 : lo ≤ a := (List.mem_range'_1.mp ha).1
  omega

/-! ## Membership characterizations of the enumeration branches -/

theorem mem_legalSatChoices (sat_charges : List Nat) (i : Nat) :
    i ∈ legalSatChoices sat_charges ↔ i < 6 ∧ 0 < sat_charges.getD i 0 := by
  unfold legalSatChoices
  simp only [List.mem_filterMap, List.mem_range]
  constructor
  · rintro ⟨a, ha, hsome⟩
    by_cases hc : 0 < sat_charges.getD a 0
    · rw [if_pos hc] at hsome
      cases hsome
      exact ⟨ha, hc⟩
    · rw [if_neg hc] at hsome
      cases hsome
  · rintro ⟨hi, hc⟩
    exact ⟨i, hi, by rw [if_pos hc]⟩

theorem mem_moveBlock (turn : Int) (req_kind : Nat) (unit_owner : List Int)
    (unit_kind unit_count : List Nat) (is_artefact : List Bool) (M ord x : Nat) :
    x ∈ moveBlock turn req_kind unit_owner unit_kind unit_count is_artefact M ord ↔
      moveSrcOk turn req_kind unit_owner unit_kind unit_count ord ∧
      1 ≤ (moveLoHiAt turn req_kind unit_owner unit_kind unit_count is_artefact ord).1 ∧
      ∃ a, (moveLoHiAt turn req_kind unit_owner unit_kind unit_count is_artefact ord).1
          ≤ a ∧
        a ≤ min
          (moveLoHiAt turn req_kind unit_owner unit_kind unit_count is_artefact ord).2 M ∧
        x = 8 + unit_owner.length + ord * M + (a - 1) := by
  unfold moveBlock
  split_ifs with hc hr
  · simp only [List.mem_map, List.mem_range'_1]
    constructor
    · rintro ⟨a, ⟨ha1, ha2⟩, rfl⟩
      exact ⟨hc, hr.1, a, ha1, by omega, rfl⟩
    · rintro ⟨-, -, a, ha1, ha2, rfl⟩
      exact ⟨a, ⟨ha1, by omega⟩, rfl⟩
  · simp only [List.not_mem_nil, false_iff]
    rintro ⟨-, hr1, a, ha1, ha2, -⟩
    exact hr ⟨hr1, by omega⟩
  · simp only [List.not_mem_nil, false_iff]
    rintro ⟨hc', -⟩
    exact hc hc'

theorem mem_legalMoves (turn : Int) (req_kind : Nat) (unit_owner : List Int)
    (unit_kind unit_count : List Nat) (is_artefact : List Bool) (M x : Nat) :
    x ∈ legalMoves turn req_kind unit_owner unit_kind unit_count is_artefact M ↔
      ∃ ord, ord < edgeList.length ∧
        x ∈ moveBlock turn req_kind unit_owner unit_kind unit_count is_artefact M ord := by
  unfold legalMoves
  simp only [List.mem_flatMap, List.mem_range]

/-! ## Sortedness of the enumeration branches -/

theorem legalSatChoices_sorted (sat_charges : List Nat) :
    (legalSatChoices sat_charges).Sorted (fun a b => a < b) :=
  sorted_filterMap_range 6 0 _ (fun i x hx => by
    by_cases hc : 0 < sat_charges.getD i 0
    · rw [if_pos hc] at hx; cases hx; omega
    · rw [if_neg hc] at hx; cases hx)

theorem legalAddTank_sorted (turn : Int) (unit_owner : List Int) (unit_kind : List Nat)
    (is_artefact is_p0_start is_p1_start : List Bool) :
    (legalAddTank turn unit_owner unit_kind is_artefact is_p0_start
      is_p1_start).Sorted (fun a b => a < b) :=
  sorted_filterMap_range _ 8 _ (fun cid x hx => by
    split_ifs at hx <;> (cases hx; rfl))

theorem legalAddBot_parts_sorted (turn : Int) (unit_owner : List Int)
    (unit_kind : List Nat) (is_p0_start is_p1_start : List Bool) :
    ∃ l1 l2, legalAddBot turn unit_owner unit_kind is_p0_start is_p1_start = l1 ++ l2 ∧
      l1.Sorted (fun a b => a < b) ∧ l2.Sorted (fun a b => a < b) := by
  refine ⟨_, _, rfl, ?_, ?_⟩ <;>
    exact sorted_filterMap_range _ 8 _ (fun cid x hx => by
      split_ifs at hx <;> (cases hx; rfl))

theorem legalMoves_sorted (turn : Int) (req_kind : Nat) (unit_owner : List Int)
    (unit_kind unit_count : List Nat) (is_artefact : List Bool) (M : Nat) :
    (legalMoves turn req_kind unit_owner unit_kind unit_count is_artefact M).Sorted
      (fun a b => a < b) := by
  refine sorted_flatMap_blocks edgeList.length M (8 + unit_owner.length) _ ?_ ?_
  · intro ord x hx
    rw [mem_moveBlock] at hx
    obtain ⟨-, hlo, a, ha1, ha2, rfl⟩ := hx
    exact ⟨a, by omega, by omega, rfl⟩
  · intro ord
    unfold moveBlock
    split_ifs with hc hr
    · exact sorted_amount_block _ _ _ hr.1
    · exact List.sorted_nil
    · exact List.sorted_nil

/-! ## C2: enumeration order -/

/-- C2 counterexample: in phase PerformActions with action type add_bot
(mover 0 owning a bot on cell 10, own start cell 3 empty), the enumerator
returns `[18, 11]`, which is not sorted — the add_bot branch concatenates
its two scans in cell order without merging. -/
theorem c2_counterexample :
    generate_legal_action_indices_inner 3 2 0 [0, 0, 0, 0, 0, 0]
        ((List.replicate 88 (-1)).set 10 0) ((List.replicate 88 0).set 10 1)
        ((List.replicate 88 0).set 10 1) (List.replicate 88 false)
        ((List.replicate 88 false).set 3 true) (List.replicate 88 false) 3 =
      .ok [18, 11] ∧
    ¬ ([18, 11] : List Nat).Sorted (fun a b => a ≤ b) := by
  constructor
  · decide
  · decide

/-- C2 amended: the enumerator's output is strictly sorted in every phase
and action type except PerformActions/add_bot, where it is the ascending
list of own-bot cells followed by the ascending list of empty own-start
cells (two sorted runs); at ChooseSatellite (with `max_move_amount ≠ 0`)
it is exactly the slot indices with positive charge, in ascending order. -/
theorem c2_sorted_with_add_bot_exception
    (state_code action_type_code : Nat) (turn : Int) (sat_charges : List Nat)
    (unit_owner : List Int) (unit_kind unit_count : List Nat)
    (is_artefact is_p0_start is_p1_start : List Bool) (M : Nat) (L : List Nat)
    (h : generate_legal_action_indices_inner state_code action_type_code turn sat_charges
      unit_owner unit_kind unit_count is_artefact is_p0_start is_p1_start M = .ok L) :
    (¬ (state_code = 3 ∧ action_type_code = 2) → L.Sorted (fun a b => a < b)) ∧
    (state_code = 1 → M ≠ 0 →
      (∀ i, i ∈ L ↔ i < 6 ∧ 0 < sat_charges.getD i 0) ∧ L.Sorted (fun a b => a < b)) ∧
    (state_code = 3 ∧ action_type_code = 2 →
      ∃ l1 l2, L = l1 ++ l2 ∧ l1.Sorted (fun a b => a < b) ∧
        l2.Sorted (fun a b => a < b)) := by
  by_cases hB : boardArgsOk unit_owner unit_kind unit_count is_artefact is_p0_start
    is_p1_start
  case neg =>
    rw [legal_inner_error _ _ _ _ _ _ _ _ _ _ _ hB] at h
    cases h
  by_cases hM : M = 0
  case pos =>
    subst hM
    rw [legal_inner_mzero _ _ _ _ _ _ _ _ _ _ hB] at h
    cases h
    refine ⟨fun _ => List.sorted_nil, fun _ hM0 => absurd rfl hM0, fun _ => ?_⟩
    exact ⟨[], [], rfl, List.sorted_nil, List.sorted_nil⟩
  match state_code with
  | 0 =>
    rw [legal_inner_s0 _ _ _ _ _ _ _ _ _ _ hB hM] at h
    cases h
    exact ⟨fun _ => List.sorted_nil, fun hs => absurd hs (by omega),
      fun hs => absurd hs.1 (by omega)⟩
  | 1 =>
    rw [legal_inner_s1 _ _ _ _ _ _ _ _ _ _ hB hM] at h
    cases h
    refine ⟨fun _ => legalSatChoices_sorted _,
      fun _ _ => ⟨mem_legalSatChoices _, legalSatChoices_sorted _⟩,
      fun hs => absurd hs.1 (by omega)⟩
  | 2 =>
    rw [legal_inner_s2 _ _ _ _ _ _ _ _ _ _ hB hM] at h
    cases h
    exact ⟨fun _ => by decide, fun hs => absurd hs (by omega),
      fun hs => absurd hs.1 (by omega)⟩
  | 3 =>
    by_cases ha12 : action_type_code = 1 ∨ action_type_code = 2
    · by_cases hcap : 20 ≤ ownerTotal unit_owner unit_count turn
      · rw [legal_inner_add_cap _ _ _ _ _ _ _ _ _ _ hB hM ha12 hcap] at h
        cases h
        exact ⟨fun _ => List.sorted_nil, fun hs => absurd hs (by omega),
          fun _ => ⟨[], [], rfl, List.sorted_nil, List.sorted_nil⟩⟩
      · rcases ha12 with ha1 | ha2
        · subst ha1
          rw [legal_inner_add_tank _ _ _ _ _ _ _ _ _ hB hM hcap] at h
          cases h
          exact ⟨fun _ => legalAddTank_sorted _ _ _ _ _ _,
            fun hs => absurd hs (by omega), fun hs => absurd hs.2 (by omega)⟩
        · subst ha2
          rw [legal_inner_add_bot _ _ _ _ _ _ _ _ _ hB hM hcap] at h
          cases h
          exact ⟨fun hn => absurd ⟨rfl, rfl⟩ hn, fun hs => absurd hs (by omega),
            fun _ => legalAddBot_parts_sorted _ _ _ _ _⟩
    · by_cases ha34 : action_type_code = 3 ∨ action_type_code = 4
      · by_cases hnb : neighborsByCellId.length = unit_owner.length
        · rw [legal_inner_moves _ _ _ _ _ _ _ _ _ _ hB hM ha34 hnb] at h
          cases h
          exact ⟨fun _ => legalMoves_sorted _ _ _ _ _ _ _,
            fun hs => absurd hs (by omega), fun hs => absurd hs.2 (by omega)⟩
        · rw [legal_inner_moves_error _ _ _ _ _ _ _ _ _ _ hB hM ha34 hnb] at h
          cases h
      · rw [legal_inner_atype_other _ _ _ _ _ _ _ _ _ _ hB hM ha12 ha34] at h
        cases h
        exact ⟨fun _ => List.sorted_nil, fun hs => absurd hs (by omega),
          fun hs => absurd hs.2 (by omega)⟩
  | (k + 4) =>
    rw [legal_inner_s_other _ _ _ _ _ _ _ _ _ _ _ hB hM (by omega) (by omega) (by omega)
      (by omega)] at h
    cases h
    exact ⟨fun _ => List.sorted_nil, fun hs => absurd hs (by omega),
      fun hs => absurd hs.1 (by omega)⟩

/-- C2 witness: the ChooseSatellite characterization at a concrete state. -/
theorem c2_sorted_witness :
    (¬ ((1 : Nat) = 3 ∧ (0 : Nat) = 2) →
      ([1, 3, 5] : List Nat).Sorted (fun a b => a < b)) ∧
    ((1 : Nat) = 1 → (3 : Nat) ≠ 0 →
      (∀ i, i ∈ ([1, 3, 5] : List Nat) ↔
        i < 6 ∧ 0 < ([0, 2, 0, 1, 0, 3] : List Nat).getD i 0) ∧
      ([1, 3, 5] : List Nat).Sorted (fun a b => a < b)) ∧
    ((1 : Nat) = 3 ∧ (0 : Nat) = 2 →
      ∃ l1 l2, ([1, 3, 5] : List Nat) = l1 ++ l2 ∧
        l1.Sorted (fun a b => a < b) ∧ l2.Sorted (fun a b => a < b)) :=
  c2_sorted_with_add_bot_exception 1 0 0 [0, 2, 0, 1, 0, 3]
    (List.replicate 88 (-1)) (List.replicate 88 0) (List.replicate 88 0)
    (List.replicate 88 false) (List.replicate 88 false) (List.replicate 88 false)
    3 [1, 3, 5] (by decide)

/-! ## C4: the two tie-break policies -/

/-- C4: with equal scores, artefact exhaustion in `check_win` declares the
current mover the winner, whereas turn-limit exhaustion in `end_turn`
declares a draw (winner sentinel `-1`, never the mover). -/
theorem c4_tie_break_asymmetry (g : NativeSatGame) (hturn : g.turn ≤ 1)
    (hsc : g.score0 = g.score1) :
    (g.is_artefact.count true = 0 →
      (check_win g).1 = true ∧ (check_win g).2.state_code = 0 ∧
      (check_win g).2.winner = (g.turn : Int)) ∧
    (g.max_turns ≤ g.turn_count →
      (end_turn g).state_code = 0 ∧ (end_turn g).winner = -1 ∧
      (end_turn g).winner ≠ (g.turn : Int)) := by
  have ht := toI8_small g.turn hturn
  constructor
  · intro h0
    unfold check_win
    split_ifs with h9 <;>
      simp_all [hsc, lt_irrefl]
  · intro hmax
    unfold end_turn
    rw [if_pos hmax]
    have h1 : ¬ (g.score1 < g.score0) := by omega
    have h2 : ¬ (g.score0 < g.score1) := by omega
    refine ⟨rfl, ?_, ?_⟩
    · simp only [if_neg h1, if_neg h2]
    · simp only [if_neg h1, if_neg h2]
      have : (0 : Int) ≤ (g.turn : Int) := Int.natCast_nonneg g.turn
      omega

/-- C4 witness: a concrete tied, artefact-free, turn-limit-reached state. -/
theorem c4_tie_break_asymmetry_witness :
    let g : NativeSatGame := { baseState with
      is_artefact := List.replicate 88 false, score0 := 5, score1 := 5,
      turn := 1, turn_count := 40 }
    (g.is_artefact.count true = 0 →
      (check_win g).1 = true ∧ (check_win g).2.state_code = 0 ∧
      (check_win g).2.winner = (g.turn : Int)) ∧
    (g.max_turns ≤ g.turn_count →
      (end_turn g).state_code = 0 ∧ (end_turn g).winner = -1 ∧
      (end_turn g).winner ≠ (g.turn : Int)) :=
  c4_tie_break_asymmetry _ (by decide) (by decide)

theorem apply_move_ok_eq (g : NativeSatGame) (sid eid amount : Nat)
    (h : moveApplyOk g sid eid amount) :
    apply_move g sid eid amount = (true, move_execute g sid eid amount) := by
  obtain ⟨a1, a2, a3, a4, a5, a6, a7, a8, a9, a10, a11, a12⟩ := h
  unfold apply_move
  rw [if_neg (by omega), if_neg (by tauto), if_neg (by omega), if_neg (by tauto),
    if_neg a9, if_neg a10, if_neg a11, if_neg a12]

theorem apply_move_not_ok_eq (g : NativeSatGame) (sid eid amount : Nat)
    (h : ¬ moveApplyOk g sid eid amount) :
    apply_move g sid eid amount = (false, g) := by
  unfold apply_move
  by_cases h0 : g.unit_owner.length ≤ sid ∨ g.unit_owner.length ≤ eid ∨ amount = 0
  · rw [if_pos h0]
  rw [if_neg h0]
  by_cases h1 : g.unit_owner.getD sid (-1) ≠ toI8 g.turn ∨
      g.unit_kind.getD sid 0 ≠ (if g.action_type_code = 3 then 2 else 1)
  · rw [if_pos h1]
  rw [if_neg h1]
  by_cases h2 : g.unit_count.getD sid 0 < amount
  · rw [if_pos h2]
  rw [if_neg h2]
  by_cases h3 : eid = (if g.turn = 0 then 83 else 3) ∨ eid = (if g.turn = 0 then 84 else 4)
  · rw [if_pos h3]
  rw [if_neg h3]
  by_cases h4 : (if g.action_type_code = 3 then (2 : Nat) else 1) = 2 ∧
      g.is_artefact.getD eid false = true
  · rw [if_pos h4]
  rw [if_neg h4]
  by_cases h5 : g.unit_owner.getD eid (-1) = toI8 g.turn ∧
      g.unit_kind.getD eid 0 ≠ (if g.action_type_code = 3 then 2 else 1)
  · rw [if_pos h5]
  rw [if_neg h5]
  by_cases h6 : g.unit_owner.getD eid (-1) ≠ toI8 g.turn ∧
      g.unit_owner.getD eid (-1) ≠ -1 ∧
      (if g.action_type_code = 3 then (2 : Nat) else 1) = 1
  · rw [if_pos h6]
  rw [if_neg h6]
  by_cases h7 : g.unit_owner.getD eid (-1) ≠ toI8 g.turn ∧
      g.unit_owner.getD eid (-1) ≠ -1 ∧ g.unit_kind.getD eid 0 = 2 ∧
      amount ≤ g.unit_count.getD eid 0
  · rw [if_pos h7]
  rw [if_neg h7]
  exact absurd ⟨by omega, by omega, by omega, by tauto, by tauto, by omega, by tauto,
    by tauto, h4, h5, h6, h7⟩ h

theorem apply_move_succ_iff (g : NativeSatGame) (sid eid amount : Nat) :
    (apply_move g sid eid amount).1 = true ↔ moveApplyOk g sid eid amount := by
  by_cases h : moveApplyOk g sid eid amount
  · rw [apply_move_ok_eq g sid eid amount h]
    simp [h]
  · rw [apply_move_not_ok_eq g sid eid amount h]
    simp [h]

theorem apply_move_fail_eq (g : NativeSatGame) (sid eid amount : Nat)
    (hf : (apply_move g sid eid amount).1 = false) :
    (apply_move g sid eid amount).2 = g := by
  by_cases h : moveApplyOk g sid eid amount
  · rw [apply_move_ok_eq g sid eid amount h] at hf
    simp at hf
  · rw [apply_move_not_ok_eq g sid eid amount h]

theorem getD_set_ne {α : Type} (l : List α) (i j : Nat) (a d : α) (h : i ≠ j) :
    (l.set i a).getD j d = l.getD j d := by
  simp [List.getD_eq_getElem?_getD, List.getElem?_set_ne h]

theorem getD_set_self {α : Type} (l : List α) (i : Nat) (a d : α) (h : i < l.length) :
    (l.set i a).getD i d = a := by
  simp [List.getD_eq_getElem?_getD, List.getElem?_set_self h]

theorem scoreOfTurn_set (g : NativeSatGame) (v : Int) :
    scoreOfTurn (setScoreOfTurn g v) = v := by
  unfold scoreOfTurn setScoreOfTurn
  split_ifs with h <;> simp_all

theorem wrap16_fixed (x : Int) (h1 : -32768 ≤ x) (h2 : x ≤ 32767) : wrap16 x = x := by
  unfold wrap16
  omega

/-- Ranged resolution: a tank attacking an enemy-owned stack clears the
destination without occupying it, returns the amount to the source, and
leaves artefact flags and scores untouched. -/
theorem move_execute_ranged (g : NativeSatGame) (sid eid amount : Nat)
    (hturn : g.turn ≤ 1)
    (hsrc : g.unit_owner.getD sid (-1) = toI8 g.turn)
    (htow1 : g.unit_owner.getD eid (-1) ≠ -1)
    (htow2 : g.unit_owner.getD eid (-1) ≠ toI8 g.turn)
    (hreq : g.action_type_code = 3)
    (hslen : sid < g.unit_owner.length) (helen : eid < g.unit_owner.length)
    (hclen : g.unit_count.length = g.unit_owner.length)
    (hamt : 1 ≤ amount) (hamt2 : amount ≤ g.unit_count.getD sid 0)
    (hcnt : g.unit_count.getD sid 0 ≤ 255) :
    (move_execute g sid eid amount).is_artefact = g.is_artefact ∧
    (move_execute g sid eid amount).unit_owner.getD eid (-1) = -1 ∧
    (move_execute g sid eid amount).score0 = g.score0 ∧
    (move_execute g sid eid amount).score1 = g.score1 ∧
    (move_execute g sid eid amount).unit_count.getD sid 0 = g.unit_count.getD sid 0 := by
  have hne : sid ≠ eid := by
    intro hE
    rw [hE] at hsrc
    exact htow2 hsrc
  have hti : toI8 g.turn = (g.turn : Int) := toI8_small g.turn hturn
  have htnn : (0 : Int) ≤ (g.turn : Int) := Int.natCast_nonneg g.turn
  by_cases hc1 : g.unit_count.getD sid 0 - amount = 0
  · have e0 : ((g.unit_owner.set sid (-1)).set eid (-1)).getD sid (-1) = -1 := by
      rw [getD_set_ne _ _ _ _ _ (Ne.symm hne), getD_set_self _ _ _ _ hslen]
    have e2 : (((g.unit_owner.set sid (-1)).set eid (-1)).set sid
        (toI8 g.turn)).getD eid (-1) = -1 := by
      rw [getD_set_ne _ _ _ _ _ hne,
        getD_set_self _ _ _ _ (by simpa using helen)]
    have e3 : (((g.unit_count.set sid 0).set eid 0).set sid amount).getD sid 0 =
        amount := by
      rw [getD_set_self]
      simpa [hclen] using hslen
    simp only [move_execute, hc1, hreq, if_neg htow1, if_neg htow2, e0,
      eq_self_iff_true, if_true, Bool.false_eq_true, false_and, if_false]
    refine ⟨trivial, e2, trivial, trivial, ?_⟩
    rw [e3]
    omega
  · have e4 : (g.unit_owner.set eid (-1)).getD sid (-1) = toI8 g.turn := by
      rw [getD_set_ne _ _ _ _ _ (Ne.symm hne)]
      exact hsrc
    have e4ne : ¬ ((g.unit_owner.set eid (-1)).getD sid (-1) = -1) := by
      rw [e4, hti]
      omega
    have e5 : ((g.unit_count.set sid (g.unit_count.getD sid 0 - amount)).set eid
        0).getD sid 0 = g.unit_count.getD sid 0 - amount := by
      rw [getD_set_ne _ _ _ _ _ (Ne.symm hne)]
      rw [getD_set_self]
      omega
    have e6 : (g.unit_owner.set eid (-1)).getD eid (-1) = -1 := by
      rw [getD_set_self _ _ _ _ helen]
    have e7 : (((g.unit_count.set sid (g.unit_count.getD sid 0 - amount)).set eid
        0).set sid (satAdd8 (g.unit_count.getD sid 0 - amount) amount)).getD sid 0 =
        satAdd8 (g.unit_count.getD sid 0 - amount) amount := by
      rw [getD_set_self]
      simp [hclen]
      omega
    simp only [move_execute, hc1, hreq, if_neg htow1, if_neg htow2, e4ne, e5,
      eq_self_iff_true, if_true, Bool.false_eq_true, false_and, if_false]
    refine ⟨trivial, e6, trivial, trivial, ?_⟩
    rw [e7]
    unfold satAdd8
    omega

theorem setScoreOfTurn_is_artefact (g : NativeSatGame) (v : Int) :
    (setScoreOfTurn g v).is_artefact = g.is_artefact := by
  unfold setScoreOfTurn
  split_ifs <;> rfl

theorem setScoreOfTurn_unit_owner (g : NativeSatGame) (v : Int) :
    (setScoreOfTurn g v).unit_owner = g.unit_owner := by
  unfold setScoreOfTurn
  split_ifs <;> rfl

/-- Non-ranged capture: when the destination is empty or the mover's own
matching stack and is an artefact cell, the artefact is cleared, the
mover's score gains the (wrapped) amount, and the mover occupies the
destination. -/
theorem move_execute_capture (g : NativeSatGame) (sid eid amount : Nat)
    (hne : sid ≠ eid)
    (hcase : g.unit_owner.getD eid (-1) = -1 ∨
      g.unit_owner.getD eid (-1) = toI8 g.turn)
    (hart : g.is_artefact.getD eid false = true)
    (halen : eid < g.is_artefact.length)
    (holen : eid < g.unit_owner.length) :
    (move_execute g sid eid amount).is_artefact.getD eid false = false ∧
    scoreOfTurn (move_execute g sid eid amount) =
      wrap16 (scoreOfTurn g + (amount : Int)) ∧
    (move_execute g sid eid amount).unit_owner.getD eid (-1) = toI8 g.turn := by
  have hartset : ∀ l : List Bool, l.length = g.is_artefact.length →
      (l.set eid false).getD eid false = false := fun l hl => by
    rw [getD_set_self]
    omega
  by_cases htow : g.unit_owner.getD eid (-1) = -1
  · by_cases hc1 : g.unit_count.getD sid 0 - amount = 0
    · have own : (((g.unit_owner.set sid (-1)).set eid (toI8 g.turn))).getD eid
          (-1) = toI8 g.turn := by
        rw [getD_set_self _ _ _ _ (by simpa using holen)]
      simp only [move_execute, hc1, if_pos htow, eq_self_iff_true, if_true, if_false,
        hart, and_true, true_and, setScoreOfTurn_is_artefact,
        setScoreOfTurn_unit_owner, scoreOfTurn_set]
      refine ⟨hartset _ (by simp), ?_, own⟩
      rfl
    · have own : ((g.unit_owner.set eid (toI8 g.turn))).getD eid (-1) =
          toI8 g.turn := by
        rw [getD_set_self _ _ _ _ holen]
      simp only [move_execute, hc1, if_pos htow, eq_self_iff_true, if_true, if_false,
        hart, and_true, true_and, setScoreOfTurn_is_artefact,
        setScoreOfTurn_unit_owner, scoreOfTurn_set]
      refine ⟨hartset _ (by simp), ?_, own⟩
      rfl
  · have htow2 : g.unit_owner.getD eid (-1) = toI8 g.turn := hcase.resolve_left htow
    by_cases hc1 : g.unit_count.getD sid 0 - amount = 0
    · have own : ((g.unit_owner.set sid (-1))).getD eid (-1) = toI8 g.turn := by
        rw [getD_set_ne _ _ _ _ _ hne]
        exact htow2
      simp only [move_execute, hc1, if_neg htow, if_pos htow2, eq_self_iff_true,
        if_true, if_false, hart, and_true, true_and, setScoreOfTurn_is_artefact,
        setScoreOfTurn_unit_owner, scoreOfTurn_set]
      refine ⟨hartset _ (by simp), ?_, own⟩
      rfl
    · simp only [move_execute, hc1, if_neg htow, if_pos htow2, eq_self_iff_true,
        if_true, if_false, hart, and_true, true_and, setScoreOfTurn_is_artefact,
        setScoreOfTurn_unit_owner, scoreOfTurn_set]
      refine ⟨hartset _ (by simp), ?_, htow2⟩
      rfl

/-! ## C7: the army cap -/

/-- `apply_add` rejects, leaving the state unchanged, whenever the mover's
re-computed owned-unit total is at or above the cap of 20. -/
theorem apply_add_cap (g : NativeSatGame) (cid : Nat)
    (hcap : 20 ≤ ownerTotal g.unit_owner g.unit_count (toI8 g.turn)) :
    apply_add g cid = (false, g) := by
  simp only [apply_add]
  split_ifs <;> rfl

theorem perform_step_cap (g : NativeSatGame) (idx M2 : Nat)
    (ha : g.action_type_code = 1 ∨ g.action_type_code = 2)
    (hcap : 20 ≤ ownerTotal g.unit_owner g.unit_count (toI8 g.turn)) :
    perform_step g idx M2 = (false, g) := by
  unfold perform_step
  rw [if_pos ha]
  split_ifs with h
  · exact apply_add_cap g _ hcap
  · rfl

/-- C7: in PerformActions with an add action type, once the mover's total
owned unit count is at least 20, the enumeration is empty and every
application (the cap being re-computed inside `apply_add`) is rejected
with the state unchanged. -/
theorem c7_army_cap (g : NativeSatGame) (M : Nat)
    (hB : boardArgsOk g.unit_owner g.unit_kind g.unit_count g.is_artefact g.is_p0_start
      g.is_p1_start)
    (hs : g.state_code = 3)
    (ha : g.action_type_code = 1 ∨ g.action_type_code = 2)
    (hcap : 20 ≤ ownerTotal g.unit_owner g.unit_count (toI8 g.turn)) :
    g.legal_action_indices M = .ok [] ∧
    ∀ idx M2, apply_action_index g idx M2 = .ok (false, g) := by
  constructor
  · unfold NativeSatGame.legal_action_indices
    rw [hs]
    by_cases hM : M = 0
    · subst hM
      exact legal_inner_mzero _ _ _ _ _ _ _ _ _ _ hB
    · rcases ha with ha | ha <;> rw [ha]
      · exact legal_inner_add_cap _ _ _ _ _ _ _ _ _ _ hB hM (Or.inl rfl) hcap
      · exact legal_inner_add_cap _ _ _ _ _ _ _ _ _ _ hB hM (Or.inr rfl) hcap
  · intro idx M2
    unfold apply_action_index
    by_cases hM2 : M2 = 0
    · rw [if_pos (Or.inl hM2)]
    · rw [if_neg (by rw [hs]; omega), if_neg (by omega), if_neg (by omega),
        if_neg (by omega), perform_step_cap g idx M2 ha hcap]
      rfl

/-- C7 witness: at `capState` (a 20-tank stack), the enumeration is empty
and a concrete add application is a rejected no-op. -/
theorem c7_army_cap_witness :
    capState.legal_action_indices 3 = .ok [] ∧
    apply_action_index capState 8 3 = .ok (false, capState) :=
  ⟨(c7_army_cap capState 3 (by decide) (by decide) (by decide) (by decide)).1,
   (c7_army_cap capState 3 (by decide) (by decide) (by decide) (by decide)).2 8 3⟩

/-! ## C3: constructor validation -/

/-- C3 counterexample: `NativeSatGame::new` accepts a board array of
length 1 (≠ 85 and ≠ the real board size 88) without any error, so
construction does not reject per-cell arrays of the wrong length. -/
theorem c3_counterexample :
    (NativeSatGame.new [0] [] [] [] [] [] [0, 0, 0, 0, 0, 0] [0, 0, 0, 0, 0, 0]
        0 0 0 1 (-1) 0 0 0 0 40 (-1)).isOk = true ∧
      ([0] : List Int).length ≠ 85 ∧ ([0] : List Int).length ≠ numCells := by
  decide

/-- C3 amended: construction validates only the two satellite arrays
(length 6 each); every board array is stored exactly as given — any
length is accepted and nothing is truncated or padded. -/
theorem c3_constructor_validates_satellites_only
    (unit_owner : List Int) (unit_kind unit_count : List Nat)
    (is_artefact is_p0_start is_p1_start : List Bool)
    (sat_type_codes sat_charges : List Nat)
    (turn : Nat) (score0 score1 : Int) (state_code : Nat)
    (active_satellite_idx actions_remaining picked_up_charges : Int)
    (action_type_code : Nat) (turn_count max_turns winner : Int) :
    ((NativeSatGame.new unit_owner unit_kind unit_count is_artefact is_p0_start
        is_p1_start sat_type_codes sat_charges turn score0 score1 state_code
        active_satellite_idx actions_remaining picked_up_charges action_type_code
        turn_count max_turns winner).isOk = true ↔
      sat_type_codes.length = 6 ∧ sat_charges.length = 6) ∧
    (∀ g, NativeSatGame.new unit_owner unit_kind unit_count is_artefact is_p0_start
        is_p1_start sat_type_codes sat_charges turn score0 score1 state_code
        active_satellite_idx actions_remaining picked_up_charges action_type_code
        turn_count max_turns winner = .ok g →
      g.unit_owner = unit_owner ∧ g.unit_kind = unit_kind ∧
      g.unit_count = unit_count ∧ g.is_artefact = is_artefact ∧
      g.is_p0_start = is_p0_start ∧ g.is_p1_start = is_p1_start ∧
      g.sat_type_codes = sat_type_codes ∧ g.sat_charges = sat_charges) := by
  unfold NativeSatGame.new
  split_ifs with h
  · constructor
    · constructor
      · intro hk; exact absurd hk (by decide)
      · intro hk; exact absurd (by tauto : ¬ (sat_type_codes.length ≠ 6 ∨
          sat_charges.length ≠ 6)) (fun hn => hn h)
    · intro g hg; cases hg
  · push_neg at h
    constructor
    · simp [Except.isOk, Except.toBool, h.1, h.2]
    · intro g hg
      cases hg
      exact ⟨rfl, rfl, rfl, rfl, rfl, rfl, rfl, rfl⟩

/-- C3 witness: a fully valid construction succeeds and the satellite
validation is exercised via the amended theorem. -/
theorem c3_constructor_witness :
    (NativeSatGame.new (List.replicate 88 (-1)) (List.replicate 88 0)
        (List.replicate 88 0) (List.replicate 88 false) (List.replicate 88 false)
        (List.replicate 88 false) [0, 1, 2, 3, 0, 1] [0, 0, 3, 0, 0, 0]
        0 0 0 1 (-1) 0 0 0 0 40 (-1)).isOk = true :=
  (c3_constructor_validates_satellites_only _ _ _ _ _ _ _ _ _ _ _ _ _ _ _ _ _ _ _).1.mpr
    (by decide)

/-! ## C5: artefact capture and ranged resolution -/

/-- C5 counterexample: at `wrapState` (mover score at the i16 maximum
32767) a successful bot move onto the artefact cell wraps the score to
-32768 instead of increasing it by the moved amount. -/
theorem c5_counterexample :
    (apply_move wrapState 0 1 1).1 = true ∧
    wrapState.score0 = 32767 ∧
    wrapState.is_artefact.getD 1 false = true ∧
    wrapState.unit_owner.getD 1 (-1) = -1 ∧
    (apply_move wrapState 0 1 1).2.score0 = -32768 ∧
    (apply_move wrapState 0 1 1).2.score0 ≠ 32767 + 1 := by
  refine ⟨by decide, by decide, by decide, by decide, by decide, by decide⟩

/-- C5 amended: for every successful move along a directed edge
(`sid ≠ eid` holds for all edges), if the destination is enemy-owned (the
ranged tank case) then no artefact flag changes, the mover never occupies
the destination, scores are untouched and the amount returns to the
source; otherwise, capturing an artefact clears the flag and, provided
the mover's score plus the amount stays within i16 range, increases the
mover's score by exactly the moved amount. -/
theorem c5_capture_and_ranged (g : NativeSatGame) (sid eid amount : Nat)
    (hsucc : (apply_move g sid eid amount).1 = true)
    (hne : sid ≠ eid)
    (hturn : g.turn ≤ 1)
    (hscore_lo : -32768 ≤ scoreOfTurn g)
    (hscore_hi : scoreOfTurn g + (amount : Int) ≤ 32767)
    (hclen : g.unit_count.length = g.unit_owner.length)
    (halen : g.is_artefact.length = g.unit_owner.length)
    (hcnt : g.unit_count.getD sid 0 ≤ 255) :
    ((g.unit_owner.getD eid (-1) ≠ -1 ∧ g.unit_owner.getD eid (-1) ≠ toI8 g.turn) →
      (apply_move g sid eid amount).2.is_artefact = g.is_artefact ∧
      (apply_move g sid eid amount).2.unit_owner.getD eid (-1) = -1 ∧
      (apply_move g sid eid amount).2.score0 = g.score0 ∧
      (apply_move g sid eid amount).2.score1 = g.score1 ∧
      (apply_move g sid eid amount).2.unit_count.getD sid 0 =
        g.unit_count.getD sid 0) ∧
    ((g.unit_owner.getD eid (-1) = -1 ∨ g.unit_owner.getD eid (-1) = toI8 g.turn) →
      g.is_artefact.getD eid false = true →
      (apply_move g sid eid amount).2.is_artefact.getD eid false = false ∧
      scoreOfTurn (apply_move g sid eid amount).2 = scoreOfTurn g + (amount : Int) ∧
      (apply_move g sid eid amount).2.unit_owner.getD eid (-1) = toI8 g.turn) := by
  have hok := (apply_move_succ_iff g sid eid amount).mp hsucc
  obtain ⟨a1, a2, a3, a4, a5, a6, a7, a8, a9, a10, a11, a12⟩ := hok
  have heq := apply_move_ok_eq g sid eid amount
    ⟨a1, a2, a3, a4, a5, a6, a7, a8, a9, a10, a11, a12⟩
  rw [heq]
  constructor
  · rintro ⟨ht1, ht2⟩
    have hreq : g.action_type_code = 3 := by
      by_cases h3 : g.action_type_code = 3
      · exact h3
      · exact absurd ⟨ht2, ht1, by rw [if_neg h3]⟩ a11
    exact move_execute_ranged g sid eid amount hturn a4 ht1 ht2 hreq a1 a2 hclen a3
      a6 hcnt
  · intro hcase hart
    obtain ⟨c1, c2, c3⟩ := move_execute_capture g sid eid amount hne hcase hart
      (by omega) a2
    refine ⟨c1, ?_, c3⟩
    rw [c2, wrap16_fixed]
    · have := Int.natCast_nonneg amount
      omega
    · exact hscore_hi

/-- C5 witness: a concrete capture at `captureState`. -/
theorem c5_capture_witness :
    (apply_move captureState 0 1 2).1 = true ∧
    (apply_move captureState 0 1 2).2.is_artefact.getD 1 false = false ∧
    scoreOfTurn (apply_move captureState 0 1 2).2 = scoreOfTurn captureState + 2 ∧
    (apply_move captureState 0 1 2).2.unit_owner.getD 1 (-1) = toI8 captureState.turn := by
  have h := c5_capture_and_ranged captureState 0 1 2 (by decide) (by decide)
    (by decide) (by decide) (by decide) (by decide) (by decide) (by decide)
  obtain ⟨c1, c2, c3⟩ := h.2 (by decide) (by decide)
  exact ⟨by decide, c1, c2, c3⟩

/-! ## C6: tank-vs-tank strict overkill -/

/-- Endpoints of a directed edge are in-board and distinct. -/
theorem edge_bounds (ord : Nat) (h : ord < edgeList.length) :
    edgeSrc ord < numCells ∧ edgeDst ord < numCells ∧ edgeSrc ord ≠ edgeDst ord := by
  have hm : edgeList.getD ord (0, 0) ∈ edgeList := by
    rw [List.getD_eq_getElem?_getD, List.getElem?_eq_getElem h]
    exact List.getElem_mem h
  exact edgeList_facts _ hm

/-- The move index encoding `ord * M + (amount - 1)` is injective for
amounts in `[1, M]`. -/
theorem encode_unique (M ord ord' a a' : Nat) (ha : 1 ≤ a) (haM : a ≤ M)
    (ha' : 1 ≤ a') (haM' : a' ≤ M)
    (h : ord * M + (a - 1) = ord' * M + (a' - 1)) : ord = ord' ∧ a = a' := by
  rcases Nat.lt_trichotomy ord ord' with hlt | heq | hgt
  · exfalso
    have key : ord * M + M ≤ ord' * M := by
      have := Nat.mul_le_mul_right M (Nat.succ_le_of_lt hlt)
      rwa [Nat.succ_mul] at this
    omega
  · subst heq
    omega
  · exfalso
    have key : ord' * M + M ≤ ord * M := by
      have := Nat.mul_le_mul_right M (Nat.succ_le_of_lt hgt)
      rwa [Nat.succ_mul] at this
    omega

/-- C6 amended: along a directed edge from a mover-owned tank stack to an
opponent-owned tank stack whose cell is neither artefact-flagged nor one
of the mover's two fixed forbidden start cells, the legal amounts (with
`max_move_amount` at least the source count, i.e. before clamping) are
exactly `[dest_count+1, source_count]` in both the enumeration and the
application, and an amount equal to `dest_count` is never applicable. -/
theorem c6_tank_overkill (g : NativeSatGame) (ord M : Nat) (L : List Nat)
    (hord : ord < edgeList.length)
    (hB : boardArgsOk g.unit_owner g.unit_kind g.unit_count g.is_artefact
      g.is_p0_start g.is_p1_start)
    (hnb : neighborsByCellId.length = g.unit_owner.length)
    (hs : g.state_code = 3) (hat : g.action_type_code = 3)
    (hsrc_own : g.unit_owner.getD (edgeSrc ord) (-1) = toI8 g.turn)
    (hsrc_kind : g.unit_kind.getD (edgeSrc ord) 0 = 2)
    (hsrc_cnt : 0 < g.unit_count.getD (edgeSrc ord) 0)
    (hdst1 : g.unit_owner.getD (edgeDst ord) (-1) ≠ -1)
    (hdst2 : g.unit_owner.getD (edgeDst ord) (-1) ≠ toI8 g.turn)
    (hdst_kind : g.unit_kind.getD (edgeDst ord) 0 = 2)
    (hdst_noart : g.is_artefact.getD (edgeDst ord) false = false)
    (hdst_nsa : edgeDst ord ≠ (if g.turn = 0 then 83 else 3))
    (hdst_nsb : edgeDst ord ≠ (if g.turn = 0 then 84 else 4))
    (hturn : g.turn ≤ 1)
    (hM : g.unit_count.getD (edgeSrc ord) 0 ≤ M)
    (hleg : g.legal_action_indices M = .ok L) :
    (∀ a, 1 ≤ a → a ≤ M →
      ((8 + g.unit_owner.length + ord * M + (a - 1)) ∈ L ↔
        g.unit_count.getD (edgeDst ord) 0 + 1 ≤ a ∧
        a ≤ g.unit_count.getD (edgeSrc ord) 0)) ∧
    (∀ a, (apply_move g (edgeSrc ord) (edgeDst ord) a).1 = true ↔
      (g.unit_count.getD (edgeDst ord) 0 + 1 ≤ a ∧
       a ≤ g.unit_count.getD (edgeSrc ord) 0)) ∧
    (apply_move g (edgeSrc ord) (edgeDst ord)
      (g.unit_count.getD (edgeDst ord) 0)).1 = false := by
  have hM0 : M ≠ 0 := by omega
  have hreq : (if (3 : Nat) = 3 then (2 : Nat) else 1) = 2 := rfl
  have hbd := edge_bounds ord hord
  have hslen : edgeSrc ord < g.unit_owner.length := by
    have := neighborsByCellId_length
    omega
  have helen : edgeDst ord < g.unit_owner.length := by
    have := neighborsByCellId_length
    omega
  have hlh : moveLoHiAt (toI8 g.turn) 2 g.unit_owner g.unit_kind g.unit_count
      g.is_artefact ord =
      (if g.unit_count.getD (edgeDst ord) 0 < g.unit_count.getD (edgeSrc ord) 0 then
        (g.unit_count.getD (edgeDst ord) 0 + 1, g.unit_count.getD (edgeSrc ord) 0)
      else (0, 0)) := by
    unfold moveLoHiAt moveLoHi
    rw [if_neg (by rintro ⟨-, hx⟩; rw [hdst_noart] at hx; cases hx), if_neg hdst1,
      if_neg hdst2, if_pos rfl,
      if_neg (by omega : ¬ g.unit_kind.getD (edgeDst ord) 0 = 1)]
    by_cases hsc : g.unit_count.getD (edgeDst ord) 0 < g.unit_count.getD (edgeSrc ord) 0
    · rw [if_pos ⟨hdst_kind, hsc⟩, if_pos hsc]
    · rw [if_neg (by tauto), if_neg hsc]
  have hLeq : L = legalMoves (toI8 g.turn) 2 g.unit_owner g.unit_kind g.unit_count
      g.is_artefact M := by
    unfold NativeSatGame.legal_action_indices at hleg
    rw [hs, hat, legal_inner_moves _ _ _ _ _ _ _ _ _ _ hB hM0 (Or.inl rfl) hnb] at hleg
    cases hleg
    rfl
  have hoa : (if toI8 g.turn = 0 then (83 : Nat) else 3) =
      (if g.turn = 0 then 83 else 3) := by
    rcases Nat.le_one_iff_eq_zero_or_eq_one.mp hturn with h | h <;> rw [h] <;> rfl
  have hob : (if toI8 g.turn = 0 then (84 : Nat) else 4) =
      (if g.turn = 0 then 84 else 4) := by
    rcases Nat.le_one_iff_eq_zero_or_eq_one.mp hturn with h | h <;> rw [h] <;> rfl
  have hsrcok : moveSrcOk (toI8 g.turn) 2 g.unit_owner g.unit_kind g.unit_count ord :=
    ⟨hsrc_own, hsrc_kind, hsrc_cnt, by rw [hoa]; exact hdst_nsa,
      by rw [hob]; exact hdst_nsb⟩
  refine ⟨?_, ?_, ?_⟩
  · intro a ha1 haM
    subst hLeq
    rw [mem_legalMoves]
    constructor
    · rintro ⟨ord', hord', hmem⟩
      rw [mem_moveBlock] at hmem
      obtain ⟨hso', hlo', a', hla', haM', hx⟩ := hmem
      have hxx : ord * M + (a - 1) = ord' * M + (a' - 1) := by omega
      have hminM : min (moveLoHiAt (toI8 g.turn) 2 g.unit_owner g.unit_kind
          g.unit_count g.is_artefact ord').2 M ≤ M := Nat.min_le_right _ _
      obtain ⟨ho, ha'⟩ := encode_unique M ord ord' a a' ha1 haM (by omega) (by omega)
        hxx
      subst ho
      subst ha'
      rw [hlh] at hlo' hla' haM'
      by_cases hsc : g.unit_count.getD (edgeDst ord) 0 <
          g.unit_count.getD (edgeSrc ord) 0
      · rw [if_pos hsc] at hla' haM'
        constructor
        · exact hla'
        · have := Nat.min_le_left (g.unit_count.getD (edgeSrc ord) 0) M
          omega
      · rw [if_neg hsc] at hlo'
        simp at hlo'
    · rintro ⟨h1a, h2a⟩
      have hsc : g.unit_count.getD (edgeDst ord) 0 <
          g.unit_count.getD (edgeSrc ord) 0 := by omega
      refine ⟨ord, hord, ?_⟩
      rw [mem_moveBlock, hlh, if_pos hsc]
      exact ⟨hsrcok, by omega, a, by omega, by omega, rfl⟩
  · intro a
    rw [apply_move_succ_iff]
    unfold moveApplyOk
    constructor
    · rintro ⟨b1, b2, b3, b4, b5, b6, b7, b8, b9, b10, b11, b12⟩
      refine ⟨?_, b6⟩
      by_contra hno
      exact b12 ⟨hdst2, hdst1, hdst_kind, by omega⟩
    · rintro ⟨h1a, h2a⟩
      refine ⟨hslen, helen, by omega, hsrc_own, ?_, by omega, hdst_nsa, hdst_nsb,
        ?_, ?_, ?_, ?_⟩
      · rw [hat]
        exact hsrc_kind
      · rw [hat]
        rintro ⟨-, hx⟩
        rw [hdst_noart] at hx
        cases hx
      · rintro ⟨hx, -⟩
        exact hdst2 hx
      · rw [hat]
        rintro ⟨-, -, hx⟩
        exact absurd hx (by decide)
      · rintro ⟨-, -, -, hle⟩
        omega
  · have hnot : ¬ moveApplyOk g (edgeSrc ord) (edgeDst ord)
        (g.unit_count.getD (edgeDst ord) 0) := by
      rintro ⟨b1, b2, b3, b4, b5, b6, b7, b8, b9, b10, b11, b12⟩
      exact b12 ⟨hdst2, hdst1, hdst_kind, Nat.le_refl _⟩
    rw [apply_move_not_ok_eq _ _ _ _ hnot]

/-- C6 counterexample: at `tankArtState` the defending opponent tank
stands on an artefact cell; the source tank stack (3) strictly exceeds
the defender (1), yet the index of amount 2 (= dest_count + 1) is not
enumerated and applying it fails — the claimed range is empty here, so
the claim as stated (legal amounts exactly `[dest+1, src]` for every
tank-vs-tank edge) is false. -/
theorem c6_counterexample :
    tankArtState.unit_owner.getD (edgeSrc 0) (-1) = toI8 tankArtState.turn ∧
    tankArtState.unit_kind.getD (edgeSrc 0) 0 = 2 ∧
    tankArtState.unit_count.getD (edgeSrc 0) 0 = 3 ∧
    tankArtState.unit_owner.getD (edgeDst 0) (-1) = 1 ∧
    tankArtState.unit_kind.getD (edgeDst 0) 0 = 2 ∧
    tankArtState.unit_count.getD (edgeDst 0) 0 = 1 ∧
    tankArtState.legal_action_indices 3 = .ok [99, 100, 101, 102, 103, 104] ∧
    (8 + tankArtState.unit_owner.length + 0 * 3 + (2 - 1)) ∉
      ([99, 100, 101, 102, 103, 104] : List Nat) ∧
    (apply_move tankArtState (edgeSrc 0) (edgeDst 0) 2).1 = false := by
  decide

/-- C6 witness: the amended equivalence evaluated on the plain
tank-vs-tank state. -/
theorem c6_witness :
    ((8 + tankTankState.unit_owner.length + 0 * 3 + (2 - 1)) ∈
      ([97, 98, 99, 100, 101, 102, 103, 104] : List Nat) ↔
      tankTankState.unit_count.getD (edgeDst 0) 0 + 1 ≤ 2 ∧
      2 ≤ tankTankState.unit_count.getD (edgeSrc 0) 0) ∧
    ((apply_move tankTankState (edgeSrc 0) (edgeDst 0) 2).1 = true ↔
      tankTankState.unit_count.getD (edgeDst 0) 0 + 1 ≤ 2 ∧
      2 ≤ tankTankState.unit_count.getD (edgeSrc 0) 0) ∧
    (apply_move tankTankState (edgeSrc 0) (edgeDst 0)
      (tankTankState.unit_count.getD (edgeDst 0) 0)).1 = false := by
  have h := c6_tank_overkill tankTankState 0 3
    [97, 98, 99, 100, 101, 102, 103, 104] (by decide) (by decide) (by decide)
    (by decide) (by decide) (by decide) (by decide) (by decide) (by decide)
    (by decide) (by decide) (by decide) (by decide) (by decide) (by decide)
    (by decide) (by decide)
  exact ⟨h.1 2 (by decide) (by decide), h.2.1 2, h.2.2⟩


/-! ## C8: invariant preservation -/

theorem cellInvariant_of_units (g1 g2 : NativeSatGame)
    (ho : g1.unit_owner = g2.unit_owner) (hk : g1.unit_kind = g2.unit_kind)
    (hc : g1.unit_count = g2.unit_count) (h : cellInvariant g2) :
    cellInvariant g1 := by
  unfold cellInvariant at h ⊢
  rw [ho, hk, hc]
  exact h

theorem end_turn_units (g : NativeSatGame) :
    (end_turn g).unit_owner = g.unit_owner ∧ (end_turn g).unit_kind = g.unit_kind ∧
    (end_turn g).unit_count = g.unit_count := by
  unfold end_turn
  split_ifs <;> exact ⟨rfl, rfl, rfl⟩

theorem check_win_units (g : NativeSatGame) :
    (check_win g).2.unit_owner = g.unit_owner ∧
    (check_win g).2.unit_kind = g.unit_kind ∧
    (check_win g).2.unit_count = g.unit_count := by
  unfold check_win
  split_ifs <;> exact ⟨rfl, rfl, rfl⟩

theorem toI8_ne_neg_one (n : Nat) (h : n ≤ 1) : toI8 n ≠ -1 := by
  rw [toI8_small n h]
  omega

theorem apply_add_preserves_invariant (g : NativeSatGame) (cid : Nat)
    (hturn : g.turn ≤ 1) (hinv : cellInvariant g)
    (hklen : g.unit_kind.length = g.unit_owner.length)
    (hclen : g.unit_count.length = g.unit_owner.length) :
    cellInvariant (apply_add g cid).2 := by
  have hti := toI8_ne_neg_one g.turn hturn
  simp only [apply_add]
  split_ifs
  any_goals exact hinv
  all_goals
    rename_i hcond
    intro i hi
    simp only [List.length_set] at hi
    by_cases hic : i = cid
  all_goals first
    | (subst hic
       first
       | (rw [getD_set_self _ _ _ _ (by omega), getD_set_self _ _ _ _ (by omega),
            getD_set_self _ _ _ _ (by omega)]
          exact ⟨by constructor <;> (intro hx; exact absurd hx (by omega)),
            fun _ => by omega⟩)
       | (rw [getD_set_self _ _ _ _ (by omega)]
          refine ⟨?_, fun _ => by rw [hcond.2]; omega⟩
          rw [hcond.1]
          refine ⟨fun hx => absurd hx hti, fun hx => ?_⟩
          unfold satAdd8 at hx
          omega))
    | (first
       | (rw [getD_set_ne _ _ _ _ _ (fun hx => hic hx.symm),
            getD_set_ne _ _ _ _ _ (fun hx => hic hx.symm),
            getD_set_ne _ _ _ _ _ (fun hx => hic hx.symm)]
          exact hinv i hi)
       | (rw [getD_set_ne _ _ _ _ _ (fun hx => hic hx.symm)]
          exact hinv i hi))

theorem setScoreOfTurn_unit_kind (g : NativeSatGame) (v : Int) :
    (setScoreOfTurn g v).unit_kind = g.unit_kind := by
  unfold setScoreOfTurn
  split_ifs <;> rfl

theorem setScoreOfTurn_unit_count (g : NativeSatGame) (v : Int) :
    (setScoreOfTurn g v).unit_count = g.unit_count := by
  unfold setScoreOfTurn
  split_ifs <;> rfl

theorem cellInvariant_lists (gn g : NativeSatGame) (sid eid : Nat)
    (hlen : gn.unit_owner.length = g.unit_owner.length)
    (ho : ∀ i, i ≠ sid → i ≠ eid →
      gn.unit_owner.getD i (-1) = g.unit_owner.getD i (-1))
    (hk : ∀ i, i ≠ sid → i ≠ eid →
      gn.unit_kind.getD i 0 = g.unit_kind.getD i 0)
    (hc : ∀ i, i ≠ sid → i ≠ eid →
      gn.unit_count.getD i 0 = g.unit_count.getD i 0)
    (hsid : (gn.unit_owner.getD sid (-1) = -1 ↔ gn.unit_count.getD sid 0 = 0) ∧
      (0 < gn.unit_count.getD sid 0 → gn.unit_kind.getD sid 0 ≠ 0))
    (heid : (gn.unit_owner.getD eid (-1) = -1 ↔ gn.unit_count.getD eid 0 = 0) ∧
      (0 < gn.unit_count.getD eid 0 → gn.unit_kind.getD eid 0 ≠ 0))
    (hinv : cellInvariant g) : cellInvariant gn := by
  intro i hi
  by_cases his : i = sid
  · subst his
    exact hsid
  by_cases hie : i = eid
  · subst hie
    exact heid
  rw [ho i his hie, hk i his hie, hc i his hie]
  exact hinv i (by omega)

theorem apply_move_preserves_invariant (g : NativeSatGame) (sid eid a : Nat)
    (hne : sid ≠ eid) (hturn : g.turn ≤ 1) (hinv : cellInvariant g)
    (hklen : g.unit_kind.length = g.unit_owner.length)
    (hclen : g.unit_count.length = g.unit_owner.length) :
    cellInvariant (apply_move g sid eid a).2 := by
  by_cases hok : moveApplyOk g sid eid a
  case neg =>
    rw [apply_move_not_ok_eq _ _ _ _ hok]
    exact hinv
  obtain ⟨a1, a2, a3, a4, a5, a6, a7, a8, a9, a10, a11, a12⟩ := hok
  rw [apply_move_ok_eq _ _ _ _ ⟨a1, a2, a3, a4, a5, a6, a7, a8, a9, a10, a11, a12⟩]
  have hti := toI8_ne_neg_one g.turn hturn
  have hnes : eid ≠ sid := fun hx => hne hx.symm
  by_cases htow1 : g.unit_owner.getD eid (-1) = -1
  · by_cases hc1 : g.unit_count.getD sid 0 - a = 0
    · -- A1: empty destination, source emptied
      simp only [move_execute, hc1, if_pos htow1, eq_self_iff_true, if_true]
      have o1 : ((g.unit_owner.set sid (-1)).set eid (toI8 g.turn)).getD sid (-1) =
          -1 := by
        rw [getD_set_ne _ _ _ _ _ hnes, getD_set_self _ _ _ _ a1]
      have c1x : ((g.unit_count.set sid 0).set eid a).getD sid 0 = 0 := by
        rw [getD_set_ne _ _ _ _ _ hnes, getD_set_self _ _ _ _ (by omega)]
      have o2 : ((g.unit_owner.set sid (-1)).set eid (toI8 g.turn)).getD eid (-1) =
          toI8 g.turn := by
        rw [getD_set_self _ _ _ _ (by simp only [List.length_set]; omega)]
      have c2x : ((g.unit_count.set sid 0).set eid a).getD eid 0 = a := by
        rw [getD_set_self _ _ _ _ (by simp only [List.length_set]; omega)]
      have k2x : ((g.unit_kind.set sid 0).set eid
          (if g.action_type_code = 3 then 2 else 1)).getD eid 0 =
          (if g.action_type_code = 3 then (2 : Nat) else 1) := by
        rw [getD_set_self _ _ _ _ (by simp only [List.length_set]; omega)]
      by_cases hart : g.is_artefact.getD eid false = true
      all_goals first
        | rw [if_pos (show True ∧ g.is_artefact.getD eid false = true from
            ⟨trivial, hart⟩)]
        | rw [if_neg (show ¬(True ∧ g.is_artefact.getD eid false = true) from
            fun hx => hart hx.2)]
      all_goals first
        | refine cellInvariant_of_units _ _ (setScoreOfTurn_unit_owner _ _)
            (setScoreOfTurn_unit_kind _ _) (setScoreOfTurn_unit_count _ _) ?_
        | skip
      all_goals
        refine cellInvariant_lists _ g sid eid (by simp only [List.length_set]) ?_ ?_
          ?_ ?_ ?_ hinv
      all_goals first
        | (intro i hi1 hi2
           rw [getD_set_ne _ _ _ _ _ (fun hx => hi2 hx.symm),
             getD_set_ne _ _ _ _ _ (fun hx => hi1 hx.symm)])
        | (rw [o1, c1x]
           exact ⟨by simp, by omega⟩)
        | (rw [o2, c2x, k2x]
           refine ⟨⟨fun hx => absurd hx hti, fun hx => by omega⟩, fun _ => ?_⟩
           split_ifs <;> omega)
    · -- A2: empty destination, source keeps a remainder
      simp only [move_execute, hc1, if_pos htow1, eq_self_iff_true, if_true, if_false]
      have o1 : (g.unit_owner.set eid (toI8 g.turn)).getD sid (-1) = toI8 g.turn := by
        rw [getD_set_ne _ _ _ _ _ hnes]
        exact a4
      have c1x : ((g.unit_count.set sid (g.unit_count.getD sid 0 - a)).set eid
          a).getD sid 0 = g.unit_count.getD sid 0 - a := by
        rw [getD_set_ne _ _ _ _ _ hnes, getD_set_self _ _ _ _ (by omega)]
      have k1x : (g.unit_kind.set eid
          (if g.action_type_code = 3 then 2 else 1)).getD sid 0 =
          g.unit_kind.getD sid 0 := by
        rw [getD_set_ne _ _ _ _ _ hnes]
      have o2 : (g.unit_owner.set eid (toI8 g.turn)).getD eid (-1) = toI8 g.turn := by
        rw [getD_set_self _ _ _ _ a2]
      have c2x : ((g.unit_count.set sid (g.unit_count.getD sid 0 - a)).set eid
          a).getD eid 0 = a := by
        rw [getD_set_self _ _ _ _ (by simp only [List.length_set]; omega)]
      have k2x : (g.unit_kind.set eid
          (if g.action_type_code = 3 then 2 else 1)).getD eid 0 =
          (if g.action_type_code = 3 then (2 : Nat) else 1) := by
        rw [getD_set_self _ _ _ _ (by omega)]
      by_cases hart : g.is_artefact.getD eid false = true
      all_goals first
        | rw [if_pos (show True ∧ g.is_artefact.getD eid false = true from
            ⟨trivial, hart⟩)]
        | rw [if_neg (show ¬(True ∧ g.is_artefact.getD eid false = true) from
            fun hx => hart hx.2)]
      all_goals first
        | refine cellInvariant_of_units _ _ (setScoreOfTurn_unit_owner _ _)
            (setScoreOfTurn_unit_kind _ _) (setScoreOfTurn_unit_count _ _) ?_
        | skip
      all_goals
        refine cellInvariant_lists _ g sid eid (by simp only [List.length_set]) ?_ ?_
          ?_ ?_ ?_ hinv
      all_goals first
        | (intro i hi1 hi2
           first
           | rw [getD_set_ne _ _ _ _ _ (fun hx => hi2 hx.symm),
               getD_set_ne _ _ _ _ _ (fun hx => hi1 hx.symm)]
           | rw [getD_set_ne _ _ _ _ _ (fun hx => hi2 hx.symm)])
        | (rw [o1, c1x, k1x]
           refine ⟨⟨fun hx => absurd hx hti, fun hx => by omega⟩, fun _ => ?_⟩
           rw [a5]
           split_ifs <;> omega)
        | (rw [o2, c2x, k2x]
           refine ⟨⟨fun hx => absurd hx hti, fun hx => by omega⟩, fun _ => ?_⟩
           split_ifs <;> omega)
  · by_cases htow2 : g.unit_owner.getD eid (-1) = toI8 g.turn
    · -- B: merging into the mover's own stack
      have hkeq : g.unit_kind.getD eid 0 =
          (if g.action_type_code = 3 then (2 : Nat) else 1) := by
        by_contra hk
        exact a10 ⟨htow2, hk⟩
      by_cases hc1 : g.unit_count.getD sid 0 - a = 0
      · -- B1: source emptied
        simp only [move_execute, hc1, if_neg htow1, if_pos htow2, eq_self_iff_true,
          if_true]
        have o1 : (g.unit_owner.set sid (-1)).getD sid (-1) = -1 :=
          getD_set_self _ _ _ _ a1
        have c1x : ((g.unit_count.set sid 0).set eid
            (satAdd8 ((g.unit_count.set sid 0).getD eid 0) a)).getD sid 0 = 0 := by
          rw [getD_set_ne _ _ _ _ _ hnes, getD_set_self _ _ _ _ (by omega)]
        have o2 : (g.unit_owner.set sid (-1)).getD eid (-1) =
            g.unit_owner.getD eid (-1) := getD_set_ne _ _ _ _ _ hne
        have c2x : ((g.unit_count.set sid 0).set eid
            (satAdd8 ((g.unit_count.set sid 0).getD eid 0) a)).getD eid 0 =
            satAdd8 ((g.unit_count.set sid 0).getD eid 0) a :=
          getD_set_self _ _ _ _ (by simp only [List.length_set]; omega)
        have k2x : (g.unit_kind.set sid 0).getD eid 0 = g.unit_kind.getD eid 0 :=
          getD_set_ne _ _ _ _ _ hne
        by_cases hart : g.is_artefact.getD eid false = true
        all_goals first
          | rw [if_pos (show True ∧ g.is_artefact.getD eid false = true from
              ⟨trivial, hart⟩)]
          | rw [if_neg (show ¬(True ∧ g.is_artefact.getD eid false = true) from
              fun hx => hart hx.2)]
        all_goals first
          | refine cellInvariant_of_units _ _ (setScoreOfTurn_unit_owner _ _)
              (setScoreOfTurn_unit_kind _ _) (setScoreOfTurn_unit_count _ _) ?_
          | skip
        all_goals
          refine cellInvariant_lists _ g sid eid (by simp only [List.length_set]) ?_
            ?_ ?_ ?_ ?_ hinv
        all_goals first
          | (intro i hi1 hi2
             first
             | rw [getD_set_ne _ _ _ _ _ (fun hx => hi2 hx.symm),
                 getD_set_ne _ _ _ _ _ (fun hx => hi1 hx.symm)]
             | rw [getD_set_ne _ _ _ _ _ (fun hx => hi1 hx.symm)])
          | (rw [o1, c1x]
             exact ⟨by simp, by omega⟩)
          | (rw [o2, c2x, k2x]
             refine ⟨⟨fun hx => absurd hx htow1, fun hx => ?_⟩, fun _ => ?_⟩
             · unfold satAdd8 at hx
               omega
             · rw [hkeq]
               split_ifs <;> omega)
      · -- B2: source keeps a remainder
        simp only [move_execute, hc1, if_neg htow1, if_pos htow2, eq_self_iff_true,
          if_true, if_false]
        have o1 : g.unit_owner.getD sid (-1) = toI8 g.turn := a4
        have c1x : ((g.unit_count.set sid (g.unit_count.getD sid 0 - a)).set eid
            (satAdd8 ((g.unit_count.set sid (g.unit_count.getD sid 0 - a)).getD
              eid 0) a)).getD sid 0 = g.unit_count.getD sid 0 - a := by
          rw [getD_set_ne _ _ _ _ _ hnes, getD_set_self _ _ _ _ (by omega)]
        have c2x : ((g.unit_count.set sid (g.unit_count.getD sid 0 - a)).set eid
            (satAdd8 ((g.unit_count.set sid (g.unit_count.getD sid 0 - a)).getD
              eid 0) a)).getD eid 0 =
            satAdd8 ((g.unit_count.set sid (g.unit_count.getD sid 0 - a)).getD
              eid 0) a :=
          getD_set_self _ _ _ _ (by simp only [List.length_set]; omega)
        by_cases hart : g.is_artefact.getD eid false = true
        all_goals first
          | rw [if_pos (show True ∧ g.is_artefact.getD eid false = true from
              ⟨trivial, hart⟩)]
          | rw [if_neg (show ¬(True ∧ g.is_artefact.getD eid false = true) from
              fun hx => hart hx.2)]
        all_goals first
          | refine cellInvariant_of_units _ _ (setScoreOfTurn_unit_owner _ _)
              (setScoreOfTurn_unit_kind _ _) (setScoreOfTurn_unit_count _ _) ?_
          | skip
        all_goals
          refine cellInvariant_lists _ g sid eid (by simp only [List.length_set]) ?_
            ?_ ?_ ?_ ?_ hinv
        all_goals first
          | (intro i hi1 hi2
             first
             | rw [getD_set_ne _ _ _ _ _ (fun hx => hi2 hx.symm),
                 getD_set_ne _ _ _ _ _ (fun hx => hi1 hx.symm)]
             | rfl)
          | (rw [o1, c1x]
             refine ⟨⟨fun hx => absurd hx hti, fun hx => by omega⟩, fun _ => ?_⟩
             rw [a5]
             split_ifs <;> omega)
          | (rw [c2x]
             refine ⟨⟨fun hx => absurd hx htow1, fun hx => ?_⟩, fun _ => ?_⟩
             · unfold satAdd8 at hx
               omega
             · rw [hkeq]
               split_ifs <;> omega)
    · -- C: ranged attack on an enemy stack
      have hcode : g.action_type_code = 3 := by
        by_contra hc
        exact a11 ⟨htow2, htow1, by rw [if_neg hc]⟩
      by_cases hc1 : g.unit_count.getD sid 0 - a = 0
      · -- C1: the tank returns to an emptied source cell
        simp only [move_execute, hc1, if_neg htow1, if_neg htow2, hcode,
          eq_self_iff_true, if_true, Bool.false_eq_true, false_and, if_false]
        rw [if_pos (show ((g.unit_owner.set sid (-1)).set eid (-1)).getD sid (-1) =
            -1 by rw [getD_set_ne _ _ _ _ _ hnes, getD_set_self _ _ _ _ a1])]
        refine cellInvariant_lists _ g sid eid (by simp only [List.length_set]) ?_
          ?_ ?_ ?_ ?_ hinv
        all_goals first
          | (intro i hi1 hi2
             rw [getD_set_ne _ _ _ _ _ (fun hx => hi1 hx.symm),
               getD_set_ne _ _ _ _ _ (fun hx => hi2 hx.symm),
               getD_set_ne _ _ _ _ _ (fun hx => hi1 hx.symm)])
          | (rw [getD_set_self _ _ _ _ (by simp only [List.length_set]; omega),
               getD_set_self _ _ _ _ (by simp only [List.length_set]; omega),
               getD_set_self _ _ _ _ (by simp only [List.length_set]; omega)]
             exact ⟨⟨fun hx => absurd hx hti, fun hx => by omega⟩, fun _ => by omega⟩)
          | (rw [getD_set_ne _ _ _ _ _ hne, getD_set_self _ _ _ _
               (by simp only [List.length_set]; omega),
               getD_set_ne _ _ _ _ _ hne, getD_set_self _ _ _ _
               (by simp only [List.length_set]; omega),
               getD_set_ne _ _ _ _ _ hne, getD_set_self _ _ _ _
               (by simp only [List.length_set]; omega)]
             exact ⟨by simp, by omega⟩)
      · -- C2: the tank returns to a still-occupied source cell
        simp only [move_execute, hc1, if_neg htow1, if_neg htow2, hcode,
          eq_self_iff_true, if_true, if_false, Bool.false_eq_true, false_and]
        rw [if_neg (show ¬((g.unit_owner.set eid (-1)).getD sid (-1) = -1) by
          rw [getD_set_ne _ _ _ _ _ hnes, a4]
          exact hti)]
        have hZ : ((g.unit_count.set sid (g.unit_count.getD sid 0 - a)).set
            eid 0).getD sid 0 = g.unit_count.getD sid 0 - a := by
          rw [getD_set_ne _ _ _ _ _ hnes, getD_set_self _ _ _ _ (by omega)]
        have hlenS : sid < ((g.unit_count.set sid
            (g.unit_count.getD sid 0 - a)).set eid 0).length := by
          simp only [List.length_set]
          omega
        have oS : (g.unit_owner.set eid (-1)).getD sid (-1) = toI8 g.turn := by
          rw [getD_set_ne _ _ _ _ _ hnes, a4]
        have cS : (((g.unit_count.set sid (g.unit_count.getD sid 0 - a)).set
            eid 0).set sid (satAdd8 (((g.unit_count.set sid
              (g.unit_count.getD sid 0 - a)).set eid 0).getD sid 0) a)).getD
            sid 0 = satAdd8 (g.unit_count.getD sid 0 - a) a := by
          rw [getD_set_self _ _ _ _ hlenS, hZ]
        have kS : (g.unit_kind.set eid 0).getD sid 0 = g.unit_kind.getD sid 0 :=
          getD_set_ne _ _ _ _ _ hnes
        have oE : (g.unit_owner.set eid (-1)).getD eid (-1) = -1 :=
          getD_set_self _ _ _ _ a2
        have hlenE : eid < ((g.unit_count.set sid
            (g.unit_count.getD sid 0 - a)).length) := by
          simp only [List.length_set]
          omega
        have cE : (((g.unit_count.set sid (g.unit_count.getD sid 0 - a)).set
            eid 0).set sid (satAdd8 (((g.unit_count.set sid
              (g.unit_count.getD sid 0 - a)).set eid 0).getD sid 0) a)).getD
            eid 0 = 0 := by
          rw [getD_set_ne _ _ _ _ _ hne, getD_set_self _ _ _ _ hlenE]
        have kE : (g.unit_kind.set eid 0).getD eid 0 = 0 :=
          getD_set_self _ _ _ _ (by omega)
        refine cellInvariant_lists _ g sid eid (by simp only [List.length_set]) ?_
          ?_ ?_ ?_ ?_ hinv
        · intro i hi1 hi2
          rw [getD_set_ne _ _ _ _ _ (fun hx => hi2 hx.symm)]
        · intro i hi1 hi2
          rw [getD_set_ne _ _ _ _ _ (fun hx => hi2 hx.symm)]
        · intro i hi1 hi2
          rw [getD_set_ne _ _ _ _ _ (fun hx => hi1 hx.symm),
            getD_set_ne _ _ _ _ _ (fun hx => hi2 hx.symm),
            getD_set_ne _ _ _ _ _ (fun hx => hi1 hx.symm)]
        · rw [oS, cS, kS]
          refine ⟨⟨fun hx => absurd hx hti, fun hx => ?_⟩, fun _ => ?_⟩
          · unfold satAdd8 at hx
            omega
          · rw [a5, if_pos hcode]
            omega
        · rw [oE, cE, kE]
          exact ⟨by simp, by omega⟩

theorem choose_satellite_units (g : NativeSatGame) (idx : Nat) :
    (choose_satellite_step g idx).2.unit_owner = g.unit_owner ∧
    (choose_satellite_step g idx).2.unit_kind = g.unit_kind ∧
    (choose_satellite_step g idx).2.unit_count = g.unit_count := by
  unfold choose_satellite_step
  split_ifs <;> exact ⟨rfl, rfl, rfl⟩

theorem choose_direction_units (g : NativeSatGame) (idx M : Nat)
    (r : Bool × NativeSatGame) (h : choose_direction_step g idx M = .ok r) :
    r.2.unit_owner = g.unit_owner ∧ r.2.unit_kind = g.unit_kind ∧
    r.2.unit_count = g.unit_count := by
  simp only [choose_direction_step] at h
  split_ifs at h
  · injection h with h2
    subst h2
    exact ⟨rfl, rfl, rfl⟩
  all_goals
    (split at h
     · cases h
     · split_ifs at h
       · injection h with h2
         subst h2
         exact ⟨(end_turn_units _).1, (end_turn_units _).2.1, (end_turn_units _).2.2⟩
       · injection h with h2
         subst h2
         exact ⟨rfl, rfl, rfl⟩)

theorem after_success_units (g3 : NativeSatGame) (M : Nat)
    (r : Bool × NativeSatGame) (h : after_success g3 M = .ok r) :
    r.2.unit_owner = g3.unit_owner ∧ r.2.unit_kind = g3.unit_kind ∧
    r.2.unit_count = g3.unit_count := by
  simp only [after_success] at h
  split_ifs at h
  · injection h with h2
    subst h2
    exact ⟨(check_win_units _).1, (check_win_units _).2.1, (check_win_units _).2.2⟩
  · injection h with h2
    subst h2
    exact ⟨(end_turn_units _).1, (end_turn_units _).2.1, (end_turn_units _).2.2⟩
  · split at h
    · cases h
    · split_ifs at h
      · injection h with h2
        subst h2
        exact ⟨(end_turn_units _).1, (end_turn_units _).2.1, (end_turn_units _).2.2⟩
      · injection h with h2
        subst h2
        exact ⟨rfl, rfl, rfl⟩

theorem perform_step_invariant (g : NativeSatGame) (idx M : Nat)
    (hturn : g.turn ≤ 1) (hinv : cellInvariant g)
    (hklen : g.unit_kind.length = g.unit_owner.length)
    (hclen : g.unit_count.length = g.unit_owner.length) :
    cellInvariant (perform_step g idx M).2 := by
  unfold perform_step
  split_ifs with h1 h2 h3 h4 h5
  · exact apply_add_preserves_invariant g (idx - 8) hturn hinv hklen hclen
  · exact hinv
  · exact apply_move_preserves_invariant g _ _ _ (edge_bounds _ h5).2.2 hturn hinv
      hklen hclen
  · exact hinv
  · exact hinv
  · exact hinv

/-- C8: the per-cell invariant (owner is the none sentinel `-1` exactly
when the count is 0, and a positive count implies a real kind) is
preserved by `apply_action_index` for every action index and
`max_move_amount`, on states whose kind/count arrays match the owner
array's length and whose turn is a player id — covering add mutations,
merge moves, source-emptying moves and ranged attack resolutions. -/
theorem c8_invariant_preserved (g : NativeSatGame) (idx M : Nat)
    (hturn : g.turn ≤ 1)
    (hklen : g.unit_kind.length = g.unit_owner.length)
    (hclen : g.unit_count.length = g.unit_owner.length)
    (hinv : cellInvariant g) (r : Bool × NativeSatGame)
    (h : apply_action_index g idx M = .ok r) :
    cellInvariant r.2 := by
  unfold apply_action_index at h
  split_ifs at h
  · injection h with h2
    subst h2
    exact hinv
  · injection h with h2
    subst h2
    exact cellInvariant_of_units _ g (choose_satellite_units g idx).1
      (choose_satellite_units g idx).2.1 (choose_satellite_units g idx).2.2 hinv
  · exact cellInvariant_of_units _ g (choose_direction_units g idx M r h).1
      (choose_direction_units g idx M r h).2.1
      (choose_direction_units g idx M r h).2.2 hinv
  · injection h with h2
    subst h2
    exact hinv
  · injection h with h2
    subst h2
    exact perform_step_invariant g idx M hturn hinv hklen hclen
  · exact cellInvariant_of_units _ _ (after_success_units _ M r h).1
      (after_success_units _ M r h).2.1 (after_success_units _ M r h).2.2
      (perform_step_invariant g idx M hturn hinv hklen hclen)

/-- C8 witness: the preservation theorem applied to the concrete
ChooseSatellite transition from `baseState`. -/
theorem c8_invariant_preserved_witness :
    (baseState.turn ≤ 1 ∧
      baseState.unit_kind.length = baseState.unit_owner.length ∧
      baseState.unit_count.length = baseState.unit_owner.length ∧
      cellInvariant baseState ∧
      apply_action_index baseState 2 5 = .ok (true, c8State)) ∧
    cellInvariant (true, c8State).2 :=
  ⟨⟨by decide, by decide, by decide, by decide, by decide⟩,
    c8_invariant_preserved baseState 2 5 (by decide) (by decide) (by decide)
      (by decide) (true, c8State) (by decide)⟩


/-! ## C10: fixed forbidden destination cells, flag independence -/

set_option maxHeartbeats 2000000 in
theorem move_execute_flags (g : NativeSatGame) (p0 p1 : List Bool)
    (sid eid a : Nat) :
    move_execute { g with is_p0_start := p0, is_p1_start := p1 } sid eid a =
      { move_execute g sid eid a with is_p0_start := p0, is_p1_start := p1 } := by
  simp only [move_execute]
  split_ifs <;>
    first
    | rfl
    | (unfold setScoreOfTurn scoreOfTurn
       dsimp only
       split_ifs <;> rfl)

theorem apply_move_flags (g : NativeSatGame) (p0 p1 : List Bool)
    (sid eid a : Nat) :
    apply_move { g with is_p0_start := p0, is_p1_start := p1 } sid eid a =
      ((apply_move g sid eid a).1,
        { (apply_move g sid eid a).2 with is_p0_start := p0, is_p1_start := p1 }) := by
  by_cases hok : moveApplyOk g sid eid a
  · rw [apply_move_ok_eq _ _ _ _ hok,
      apply_move_ok_eq { g with is_p0_start := p0, is_p1_start := p1 } sid eid a hok,
      move_execute_flags]
  · rw [apply_move_not_ok_eq _ _ _ _ hok,
      apply_move_not_ok_eq { g with is_p0_start := p0, is_p1_start := p1 } sid eid a
        hok]

/-- C10: the two forbidden opponent-start destination cells are the fixed
ids 83 and 84 when the mover is player 0 and 3 and 4 when the mover is
player 1, determined solely by the turn: the move branch of the index
enumerator gives identical output for any two flag-array pairs of
matching length, `apply_move` carries arbitrary replacement flag arrays
through unchanged (same flag, same board effect), no per-edge move block
ever emits a move into a forbidden destination, and `apply_move` rejects
any such destination outright. -/
theorem c10_forbidden_cells_fixed
    (turn : Int) (atype M : Nat) (sat_charges : List Nat) (unit_owner : List Int)
    (unit_kind unit_count : List Nat) (is_artefact p0 p1 q0 q1 : List Bool)
    (g : NativeSatGame) (sid eid a : Nat)
    (hb : boardArgsOk unit_owner unit_kind unit_count is_artefact p0 p1)
    (hb2 : boardArgsOk unit_owner unit_kind unit_count is_artefact q0 q1)
    (hM : M ≠ 0) (hat : atype = 3 ∨ atype = 4)
    (hnb : neighborsByCellId.length = unit_owner.length) :
    generate_legal_action_indices_inner 3 atype turn sat_charges unit_owner
        unit_kind unit_count is_artefact p0 p1 M =
      generate_legal_action_indices_inner 3 atype turn sat_charges unit_owner
        unit_kind unit_count is_artefact q0 q1 M ∧
    apply_move { g with is_p0_start := p0, is_p1_start := p1 } sid eid a =
      ((apply_move g sid eid a).1,
        { (apply_move g sid eid a).2 with is_p0_start := p0, is_p1_start := p1 }) ∧
    (∀ ord : Nat,
      edgeDst ord = (if turn = 0 then 83 else 3) ∨
        edgeDst ord = (if turn = 0 then 84 else 4) →
      moveBlock turn (if atype = 3 then 2 else 1) unit_owner unit_kind unit_count
        is_artefact M ord = []) ∧
    (eid = (if g.turn = 0 then 83 else 3) ∨ eid = (if g.turn = 0 then 84 else 4) →
      apply_move g sid eid a = (false, g)) := by
  refine ⟨?_, apply_move_flags g p0 p1 sid eid a, ?_, ?_⟩
  · rw [legal_inner_moves _ _ _ _ _ _ _ _ _ _ hb hM hat hnb,
      legal_inner_moves _ _ _ _ _ _ _ _ _ _ hb2 hM hat hnb]
  · intro ord hdst
    unfold moveBlock
    rw [if_neg]
    rintro ⟨-, -, -, h4, h5⟩
    rcases hdst with h | h
    · exact h4 h
    · exact h5 h
  · intro heid
    apply apply_move_not_ok_eq
    rintro ⟨-, -, -, -, -, -, a7, a8, -, -, -, -⟩
    rcases heid with h | h
    · exact a7 h
    · exact a8 h

/-- C10 witness: the theorem evaluated at `baseState` with the flag
arrays replaced by all-`true` arrays, destination 83 for player 0. -/
theorem c10_witness :
    (boardArgsOk baseState.unit_owner baseState.unit_kind baseState.unit_count
        baseState.is_artefact baseState.is_p0_start baseState.is_p1_start ∧
      boardArgsOk baseState.unit_owner baseState.unit_kind baseState.unit_count
        baseState.is_artefact (List.replicate 88 true) (List.replicate 88 true) ∧
      (1 : Nat) ≠ 0 ∧ ((3 : Nat) = 3 ∨ (3 : Nat) = 4) ∧
      neighborsByCellId.length = baseState.unit_owner.length) ∧
    (generate_legal_action_indices_inner 3 3 0 baseState.sat_charges
        baseState.unit_owner baseState.unit_kind baseState.unit_count
        baseState.is_artefact baseState.is_p0_start baseState.is_p1_start 1 =
      generate_legal_action_indices_inner 3 3 0 baseState.sat_charges
        baseState.unit_owner baseState.unit_kind baseState.unit_count
        baseState.is_artefact (List.replicate 88 true) (List.replicate 88 true) 1 ∧
    apply_move { baseState with
        is_p0_start := baseState.is_p0_start,
        is_p1_start := baseState.is_p1_start } 0 83 1 =
      ((apply_move baseState 0 83 1).1,
        { (apply_move baseState 0 83 1).2 with
          is_p0_start := baseState.is_p0_start,
          is_p1_start := baseState.is_p1_start }) ∧
    (∀ ord : Nat,
      edgeDst ord = (if (0 : Int) = 0 then 83 else 3) ∨
        edgeDst ord = (if (0 : Int) = 0 then 84 else 4) →
      moveBlock 0 (if (3 : Nat) = 3 then 2 else 1) baseState.unit_owner
        baseState.unit_kind baseState.unit_count baseState.is_artefact 1 ord = []) ∧
    ((83 : Nat) = (if baseState.turn = 0 then 83 else 3) ∨
        (83 : Nat) = (if baseState.turn = 0 then 84 else 4) →
      apply_move baseState 0 83 1 = (false, baseState))) :=
  ⟨⟨by decide, by decide, by decide, by decide, by decide⟩,
    c10_forbidden_cells_fixed 0 3 1 baseState.sat_charges baseState.unit_owner
      baseState.unit_kind baseState.unit_count baseState.is_artefact
      baseState.is_p0_start baseState.is_p1_start (List.replicate 88 true)
      (List.replicate 88 true) baseState 0 83 1 (by decide) (by decide)
      (by decide) (by decide) (by decide)⟩


/-! ## C9: the secondary move enumerator refines the index enumerator -/

theorem moveLoHi_hi_le (turn : Int) (req sc : Nat) (tow : Int) (tk tc : Nat)
    (ad : Bool) : (moveLoHi turn req sc tow tk tc ad).2 ≤ sc := by
  unfold moveLoHi
  split_ifs <;> simp

theorem moveLoHi_zero (turn : Int) (req sc : Nat) (tow : Int) (tk tc : Nat)
    (ad : Bool) (h : (moveLoHi turn req sc tow tk tc ad).1 = 0) :
    (moveLoHi turn req sc tow tk tc ad).2 = 0 := by
  unfold moveLoHi at h ⊢
  split_ifs at h ⊢ <;> simp_all

theorem mem_edgeList_iff (s e : Nat) :
    (s, e) ∈ edgeList ↔
      s < neighborsByCellId.length ∧ e ∈ neighborsByCellId.getD s [] := by
  unfold edgeList
  simp only [List.mem_flatMap, List.mem_range, List.mem_map]
  constructor
  · rintro ⟨a, ha, x, hx, hpe⟩
    injection hpe with h1 h2
    subst h1
    subst h2
    exact ⟨ha, hx⟩
  · rintro ⟨hs, he⟩
    exact ⟨s, hs, e, he, rfl⟩

theorem edge_ord_iff (s e : Nat) :
    (∃ ord, ord < edgeList.length ∧ edgeSrc ord = s ∧ edgeDst ord = e) ↔
      s < neighborsByCellId.length ∧ e ∈ neighborsByCellId.getD s [] := by
  rw [← mem_edgeList_iff]
  constructor
  · rintro ⟨ord, hord, h1, h2⟩
    have hm : edgeList.getD ord (0, 0) ∈ edgeList := by
      rw [List.getD_eq_getElem?_getD, List.getElem?_eq_getElem hord]
      exact List.getElem_mem hord
    have : edgeList.getD ord (0, 0) = (s, e) := by
      unfold edgeSrc at h1
      unfold edgeDst at h2
      exact Prod.ext h1 h2
    rwa [this] at hm
  · intro hm
    obtain ⟨i, hi, hgi⟩ := List.getElem_of_mem hm
    refine ⟨i, hi, ?_, ?_⟩
    · unfold edgeSrc
      rw [List.getD_eq_getElem?_getD, List.getElem?_eq_getElem hi, hgi]
      rfl
    · unfold edgeDst
      rw [List.getD_eq_getElem?_getD, List.getElem?_eq_getElem hi, hgi]
      rfl


set_option maxHeartbeats 1000000 in
theorem mem_movegenEdge (turn : Int) (req : Nat) (unit_owner : List Int)
    (unit_kind unit_count : List Nat) (is_artefact : List Bool)
    (sid eid s e am : Nat) (hreq : req = 1 ∨ req = 2) :
    (s, e, am) ∈ movegenEdge turn req unit_owner unit_kind unit_count
        is_artefact sid eid ↔
      s = sid ∧ e = eid ∧
      eid ≠ (if turn = 0 then 83 else 3) ∧ eid ≠ (if turn = 0 then 84 else 4) ∧
      1 ≤ am ∧
      (moveLoHi turn req (unit_count.getD sid 0) (unit_owner.getD eid (-1))
          (unit_kind.getD eid 0) (unit_count.getD eid 0)
          (is_artefact.getD eid false)).1 ≤ am ∧
      am ≤ (moveLoHi turn req (unit_count.getD sid 0) (unit_owner.getD eid (-1))
          (unit_kind.getD eid 0) (unit_count.getD eid 0)
          (is_artefact.getD eid false)).2 := by
  simp only [movegenEdge, moveLoHi]
  split_ifs <;>
    simp [List.mem_map, List.mem_range'_1, Prod.mk.injEq]
  all_goals try omega
  all_goals
    (constructor
     · rintro ⟨a, ⟨ha1, ha2⟩, rfl, rfl, rfl⟩
       omega
     · rintro ⟨rfl, rfl, hrest⟩
       exact ⟨am, by omega, rfl, rfl, rfl⟩)

theorem mem_generate_move_actions
    (unit_owner : List Int) (unit_kind unit_count : List Nat) (turn : Int)
    (req : Nat) (is_artefact : List Bool) (s e am : Nat)
    (hk : unit_kind.length = unit_owner.length)
    (hc : unit_count.length = unit_owner.length)
    (ha : is_artefact.length = unit_owner.length)
    (hreq : req = 1 ∨ req = 2)
    (hn : neighborsByCellId.length = unit_owner.length) :
    ∃ L, generate_move_actions unit_owner unit_kind unit_count turn req
        is_artefact = .ok L ∧
      ((s, e, am) ∈ L ↔
        s < unit_owner.length ∧ e ∈ neighborsByCellId.getD s [] ∧
        unit_owner.getD s (-1) = turn ∧ unit_kind.getD s 0 = req ∧
        0 < unit_count.getD s 0 ∧
        e ≠ (if turn = 0 then 83 else 3) ∧ e ≠ (if turn = 0 then 84 else 4) ∧
        1 ≤ am ∧
        (moveLoHi turn req (unit_count.getD s 0) (unit_owner.getD e (-1))
            (unit_kind.getD e 0) (unit_count.getD e 0)
            (is_artefact.getD e false)).1 ≤ am ∧
        am ≤ (moveLoHi turn req (unit_count.getD s 0) (unit_owner.getD e (-1))
            (unit_kind.getD e 0) (unit_count.getD e 0)
            (is_artefact.getD e false)).2) := by
  have hL : generate_move_actions unit_owner unit_kind unit_count turn req
      is_artefact = .ok ((List.range unit_owner.length).flatMap
        (movegenCell turn req unit_owner unit_kind unit_count is_artefact)) := by
    simp only [generate_move_actions]
    rw [if_neg (by push_neg; exact ⟨hk, hc, ha⟩),
      if_neg (by rcases hreq with h | h <;> simp [h]),
      if_neg (by omega)]
  refine ⟨_, hL, ?_⟩
  simp only [List.mem_flatMap, List.mem_range]
  constructor
  · rintro ⟨sid, hsid, hmem⟩
    unfold movegenCell at hmem
    by_cases h1 : unit_owner.getD sid (-1) ≠ turn ∨ unit_kind.getD sid 0 ≠ req
    · rw [if_pos h1] at hmem
      cases hmem
    rw [if_neg h1] at hmem
    by_cases h2 : unit_count.getD sid 0 = 0
    · rw [if_pos h2] at hmem
      cases hmem
    rw [if_neg h2] at hmem
    rw [List.mem_flatMap] at hmem
    obtain ⟨eid, heid, hmem⟩ := hmem
    rw [mem_movegenEdge _ _ _ _ _ _ _ _ _ _ _ hreq] at hmem
    obtain ⟨rfl, rfl, h83, h84, h1am, hlo, hhi⟩ := hmem
    push_neg at h1
    exact ⟨hsid, heid, h1.1, h1.2, by omega, h83, h84, h1am, hlo, hhi⟩
  · rintro ⟨hs, he, ho, hk2, hc2, h83, h84, h1am, hlo, hhi⟩
    refine ⟨s, hs, ?_⟩
    unfold movegenCell
    rw [if_neg (by push_neg; exact ⟨ho, hk2⟩), if_neg (by omega),
      List.mem_flatMap]
    exact ⟨e, he, (mem_movegenEdge _ _ _ _ _ _ _ _ _ _ _ hreq).2
      ⟨rfl, rfl, h83, h84, h1am, hlo, hhi⟩⟩

/-- C9: refinement between the two move enumerators.  For every board,
mover and requested kind (1 = bot, 2 = tank), with matching array lengths
and a `max_move_amount` at least every cell's stack size ("sufficiently
large"), `generate_move_actions` succeeds and returns the triple
`(s, e, am)` exactly when some edge ordinal realises `(s, e)` and the
PerformActions move enumeration produces the corresponding encoded action
index `8 + n + ord * M + (am - 1)` — the same source/destination
ownership, kind, artefact and start-hex conditions and the same amount
ranges. -/
theorem c9_movegen_matches_move_enumeration
    (unit_owner : List Int) (unit_kind unit_count : List Nat) (turn : Int)
    (req M : Nat) (is_artefact : List Bool) (s e am : Nat)
    (hk : unit_kind.length = unit_owner.length)
    (hc : unit_count.length = unit_owner.length)
    (ha : is_artefact.length = unit_owner.length)
    (hreq : req = 1 ∨ req = 2)
    (hn : neighborsByCellId.length = unit_owner.length)
    (hM : ∀ i, i < unit_owner.length → unit_count.getD i 0 ≤ M) :
    ∃ L, generate_move_actions unit_owner unit_kind unit_count turn req
        is_artefact = .ok L ∧
      ((s, e, am) ∈ L ↔
        1 ≤ am ∧ am ≤ M ∧
        ∃ ord, ord < edgeList.length ∧ edgeSrc ord = s ∧ edgeDst ord = e ∧
          (8 + unit_owner.length + ord * M + (am - 1)) ∈
            legalMoves turn req unit_owner unit_kind unit_count is_artefact M) := by
  obtain ⟨L, hL, hiff⟩ := mem_generate_move_actions unit_owner unit_kind
    unit_count turn req is_artefact s e am hk hc ha hreq hn
  refine ⟨L, hL, ?_⟩
  rw [hiff]
  constructor
  · rintro ⟨hs, he, ho, hk2, hc2, h83, h84, h1am, hlo, hhi⟩
    have hamM : am ≤ M :=
      le_trans hhi (le_trans (moveLoHi_hi_le _ _ _ _ _ _ _) (hM s hs))
    refine ⟨h1am, hamM, ?_⟩
    obtain ⟨ord, hord, h1, h2⟩ := (edge_ord_iff s e).2 ⟨by omega, he⟩
    refine ⟨ord, hord, h1, h2, ?_⟩
    rw [mem_legalMoves]
    refine ⟨ord, hord, ?_⟩
    rw [mem_moveBlock]
    have hAt : moveLoHiAt turn req unit_owner unit_kind unit_count is_artefact
        ord = moveLoHi turn req (unit_count.getD s 0) (unit_owner.getD e (-1))
          (unit_kind.getD e 0) (unit_count.getD e 0)
          (is_artefact.getD e false) := by
      unfold moveLoHiAt
      rw [h1, h2]
    have hlopos : 1 ≤ (moveLoHiAt turn req unit_owner unit_kind unit_count
        is_artefact ord).1 := by
      rw [hAt]
      by_contra h0
      have := moveLoHi_zero turn req (unit_count.getD s 0)
        (unit_owner.getD e (-1)) (unit_kind.getD e 0) (unit_count.getD e 0)
        (is_artefact.getD e false) (by omega)
      omega
    refine ⟨?_, hlopos, am, ?_, ?_, rfl⟩
    · unfold moveSrcOk
      rw [h1, h2]
      exact ⟨ho, hk2, hc2, h83, h84⟩
    · rw [hAt]
      exact hlo
    · rw [hAt]
      exact Nat.le_min.mpr ⟨hhi, hamM⟩
  · rintro ⟨h1am, hamM, ord, hord, h1, h2, hidx⟩
    rw [mem_legalMoves] at hidx
    obtain ⟨ord2, hord2, hblk⟩ := hidx
    rw [mem_moveBlock] at hblk
    obtain ⟨hsrc, hlo1, a2, hloa, hahi, henc⟩ := hblk
    have ha2M : a2 ≤ M := le_trans hahi (min_le_right _ _)
    have ha21 : 1 ≤ a2 := le_trans hlo1 hloa
    obtain ⟨he1, he2⟩ := encode_unique M ord2 ord a2 am ha21 ha2M h1am hamM
      (by omega)
    subst he1
    subst he2
    unfold moveSrcOk at hsrc
    rw [h1, h2] at hsrc
    obtain ⟨ho, hk2, hc2, h83, h84⟩ := hsrc
    have hAt : moveLoHiAt turn req unit_owner unit_kind unit_count is_artefact
        ord2 = moveLoHi turn req (unit_count.getD s 0) (unit_owner.getD e (-1))
          (unit_kind.getD e 0) (unit_count.getD e 0)
          (is_artefact.getD e false) := by
      unfold moveLoHiAt
      rw [h1, h2]
    rw [hAt] at hloa hahi
    have hs : s < unit_owner.length := by
      have hb := (edge_bounds ord2 hord2).1
      have hnum := neighborsByCellId_length
      omega
    refine ⟨hs, ((edge_ord_iff s e).1 ⟨ord2, hord2, h1, h2⟩).2, ho, hk2, hc2,
      h83, h84, h1am, hloa, le_trans hahi (min_le_left _ _)⟩

/-- C9 witness: the refinement evaluated on the tank-vs-tank state
(three mover tanks on cell 0, one defender tank on cell 1, `M = 3`),
at the triple `(0, 1, 2)`. -/
theorem c9_witness :
    (tankTankState.unit_kind.length = tankTankState.unit_owner.length ∧
      tankTankState.unit_count.length = tankTankState.unit_owner.length ∧
      tankTankState.is_artefact.length = tankTankState.unit_owner.length ∧
      ((2 : Nat) = 1 ∨ (2 : Nat) = 2) ∧
      neighborsByCellId.length = tankTankState.unit_owner.length ∧
      (∀ i, i < tankTankState.unit_owner.length →
        tankTankState.unit_count.getD i 0 ≤ 3)) ∧
    (∃ L, generate_move_actions tankTankState.unit_owner
        tankTankState.unit_kind tankTankState.unit_count 0 2
        tankTankState.is_artefact = .ok L ∧
      ((0, 1, 2) ∈ L ↔
        1 ≤ 2 ∧ 2 ≤ 3 ∧
        ∃ ord, ord < edgeList.length ∧ edgeSrc ord = 0 ∧ edgeDst ord = 1 ∧
          (8 + tankTankState.unit_owner.length + ord * 3 + (2 - 1)) ∈
            legalMoves 0 2 tankTankState.unit_owner tankTankState.unit_kind
              tankTankState.unit_count tankTankState.is_artefact 3)) :=
  ⟨⟨by decide, by decide, by decide, by decide, by decide, by decide⟩,
    c9_movegen_matches_move_enumeration tankTankState.unit_owner
      tankTankState.unit_kind tankTankState.unit_count 0 2 3
      tankTankState.is_artefact 0 1 2 (by decide) (by decide) (by decide)
      (by decide) (by decide) (by decide)⟩


/-! ## C1: apply/enumerate agreement -/

theorem if_toI8 {α : Type} (t : Nat) (h : t ≤ 1) (x y : α) :
    (if toI8 t = 0 then x else y) = (if t = 0 then x else y) := by
  rcases Nat.le_one_iff_eq_zero_or_eq_one.mp h with h1 | h1 <;> rw [h1] <;> rfl

theorem apply_add_fail_eq (g : NativeSatGame) (cid : Nat)
    (hf : (apply_add g cid).1 = false) : apply_add g cid = (false, g) := by
  simp only [apply_add] at hf ⊢
  split_ifs at hf ⊢ <;> rfl

theorem apply_add_succ_iff (g : NativeSatGame) (cid : Nat) :
    (apply_add g cid).1 = true ↔
      cid < g.unit_owner.length ∧
      ¬ 20 ≤ ownerTotal g.unit_owner g.unit_count (toI8 g.turn) ∧
      ((g.action_type_code = 1 ∧
        ¬ (g.is_artefact.getD cid false = true ∨
          (if g.turn = 0 then g.is_p1_start else g.is_p0_start).getD cid false =
            true) ∧
        (g.unit_owner.getD cid (-1) = -1 ∨
          (g.unit_owner.getD cid (-1) = toI8 g.turn ∧
            g.unit_kind.getD cid 0 = 2))) ∨
      (g.action_type_code ≠ 1 ∧ g.action_type_code = 2 ∧
        ((g.unit_owner.getD cid (-1) = toI8 g.turn ∧ g.unit_kind.getD cid 0 = 1) ∨
          (g.unit_owner.getD cid (-1) = -1 ∧
            (if g.turn = 0 then g.is_p0_start else g.is_p1_start).getD cid false =
              true)))) := by
  simp only [apply_add]
  split_ifs <;> simp_all

theorem mem_legalAddTank (turn : Int) (unit_owner : List Int)
    (unit_kind : List Nat) (is_artefact is_p0_start is_p1_start : List Bool)
    (x : Nat) :
    x ∈ legalAddTank turn unit_owner unit_kind is_artefact is_p0_start
        is_p1_start ↔
      ∃ cid, cid < unit_owner.length ∧ x = 8 + cid ∧
        ((unit_owner.getD cid (-1) = -1 ∧
          (if turn = 0 then is_p1_start else is_p0_start).getD cid false = false ∧
          is_artefact.getD cid false = false) ∨
        (unit_owner.getD cid (-1) ≠ -1 ∧ unit_owner.getD cid (-1) = turn ∧
          unit_kind.getD cid 0 = 2)) := by
  unfold legalAddTank
  simp only [List.mem_filterMap, List.mem_range]
  constructor
  · rintro ⟨cid, hcid, hx⟩
    refine ⟨cid, hcid, ?_⟩
    revert hx
    by_cases h1 : unit_owner.getD cid (-1) = -1
    · rw [if_pos h1]
      by_cases h2 : (if turn = 0 then is_p1_start else is_p0_start).getD cid
          false = false ∧ is_artefact.getD cid false = false
      · rw [if_pos h2]
        intro hx
        cases hx
        exact ⟨rfl, Or.inl ⟨h1, h2.1, h2.2⟩⟩
      · rw [if_neg h2]
        intro hx
        cases hx
    · rw [if_neg h1]
      by_cases h3 : unit_owner.getD cid (-1) = turn ∧ unit_kind.getD cid 0 = 2
      · rw [if_pos h3]
        intro hx
        cases hx
        exact ⟨rfl, Or.inr ⟨h1, h3.1, h3.2⟩⟩
      · rw [if_neg h3]
        intro hx
        cases hx
  · rintro ⟨cid, hcid, rfl, hcond⟩
    refine ⟨cid, hcid, ?_⟩
    rcases hcond with ⟨h1, h2, h3⟩ | ⟨h1, h2, h3⟩
    · rw [if_pos h1, if_pos ⟨h2, h3⟩]
    · rw [if_neg h1, if_pos ⟨h2, h3⟩]

theorem mem_legalAddBot (turn : Int) (unit_owner : List Int)
    (unit_kind : List Nat) (is_p0_start is_p1_start : List Bool) (x : Nat) :
    x ∈ legalAddBot turn unit_owner unit_kind is_p0_start is_p1_start ↔
      ∃ cid, cid < unit_owner.length ∧ x = 8 + cid ∧
        ((unit_owner.getD cid (-1) = turn ∧ unit_kind.getD cid 0 = 1) ∨
        ((if turn = 0 then is_p0_start else is_p1_start).getD cid false = true ∧
          unit_owner.getD cid (-1) = -1)) := by
  unfold legalAddBot
  simp only [List.mem_append, List.mem_filterMap, List.mem_range]
  constructor
  · rintro (⟨cid, hcid, hx⟩ | ⟨cid, hcid, hx⟩)
    · refine ⟨cid, hcid, ?_⟩
      revert hx
      by_cases h1 : unit_owner.getD cid (-1) = turn ∧ unit_kind.getD cid 0 = 1
      · rw [if_pos h1]
        intro hx
        cases hx
        exact ⟨rfl, Or.inl h1⟩
      · rw [if_neg h1]
        intro hx
        cases hx
    · refine ⟨cid, hcid, ?_⟩
      revert hx
      by_cases h2 : (if turn = 0 then is_p0_start else is_p1_start).getD cid
          false = true ∧ unit_owner.getD cid (-1) = -1
      · rw [if_pos h2]
        intro hx
        cases hx
        exact ⟨rfl, Or.inr h2⟩
      · rw [if_neg h2]
        intro hx
        cases hx
  · rintro ⟨cid, hcid, rfl, hcond⟩
    rcases hcond with h1 | h2
    · exact Or.inl ⟨cid, hcid, by rw [if_pos h1]⟩
    · exact Or.inr ⟨cid, hcid, by rw [if_pos h2]⟩

theorem perform_step_fail_eq (g : NativeSatGame) (idx M : Nat)
    (hf : (perform_step g idx M).1 = false) :
    perform_step g idx M = (false, g) := by
  unfold perform_step at hf ⊢
  split_ifs at hf ⊢ <;>
    first
    | rfl
    | exact apply_add_fail_eq g (idx - 8) hf
    | exact Prod.ext hf (apply_move_fail_eq _ _ _ _ hf)

theorem apply_add_board_lengths (g : NativeSatGame) (cid : Nat) :
    (apply_add g cid).2.unit_owner.length = g.unit_owner.length ∧
    (apply_add g cid).2.unit_kind.length = g.unit_kind.length ∧
    (apply_add g cid).2.unit_count.length = g.unit_count.length ∧
    (apply_add g cid).2.is_artefact.length = g.is_artefact.length ∧
    (apply_add g cid).2.is_p0_start.length = g.is_p0_start.length ∧
    (apply_add g cid).2.is_p1_start.length = g.is_p1_start.length := by
  simp only [apply_add]
  split_ifs <;> refine ⟨?_, ?_, ?_, rfl, rfl, rfl⟩ <;> simp [List.length_set]

theorem move_execute_board_lengths (g : NativeSatGame) (sid eid a : Nat) :
    (move_execute g sid eid a).unit_owner.length = g.unit_owner.length ∧
    (move_execute g sid eid a).unit_kind.length = g.unit_kind.length ∧
    (move_execute g sid eid a).unit_count.length = g.unit_count.length ∧
    (move_execute g sid eid a).is_artefact.length = g.is_artefact.length ∧
    (move_execute g sid eid a).is_p0_start.length = g.is_p0_start.length ∧
    (move_execute g sid eid a).is_p1_start.length = g.is_p1_start.length := by
  simp only [move_execute]
  split_ifs <;>
    first
    | (refine ⟨?_, ?_, ?_, ?_, rfl, rfl⟩ <;> simp [List.length_set])
    | (unfold setScoreOfTurn
       split_ifs <;> refine ⟨?_, ?_, ?_, ?_, rfl, rfl⟩ <;> simp [List.length_set])

theorem apply_move_board_lengths (g : NativeSatGame) (sid eid a : Nat) :
    (apply_move g sid eid a).2.unit_owner.length = g.unit_owner.length ∧
    (apply_move g sid eid a).2.unit_kind.length = g.unit_kind.length ∧
    (apply_move g sid eid a).2.unit_count.length = g.unit_count.length ∧
    (apply_move g sid eid a).2.is_artefact.length = g.is_artefact.length ∧
    (apply_move g sid eid a).2.is_p0_start.length = g.is_p0_start.length ∧
    (apply_move g sid eid a).2.is_p1_start.length = g.is_p1_start.length := by
  by_cases hok : moveApplyOk g sid eid a
  · rw [apply_move_ok_eq _ _ _ _ hok]
    exact move_execute_board_lengths g sid eid a
  · rw [apply_move_not_ok_eq _ _ _ _ hok]
    exact ⟨rfl, rfl, rfl, rfl, rfl, rfl⟩

theorem perform_step_board_lengths (g : NativeSatGame) (idx M : Nat) :
    (perform_step g idx M).2.unit_owner.length = g.unit_owner.length ∧
    (perform_step g idx M).2.unit_kind.length = g.unit_kind.length ∧
    (perform_step g idx M).2.unit_count.length = g.unit_count.length ∧
    (perform_step g idx M).2.is_artefact.length = g.is_artefact.length ∧
    (perform_step g idx M).2.is_p0_start.length = g.is_p0_start.length ∧
    (perform_step g idx M).2.is_p1_start.length = g.is_p1_start.length := by
  unfold perform_step
  split_ifs <;>
    first
    | exact ⟨rfl, rfl, rfl, rfl, rfl, rfl⟩
    | exact apply_add_board_lengths g (idx - 8)
    | exact apply_move_board_lengths g _ _ _

theorem legal_inner_state3_ok (atype : Nat) (turn : Int) (charges : List Nat)
    (uo : List Int) (uk uc : List Nat) (art p0 p1 : List Bool) (M : Nat)
    (hb : boardArgsOk uo uk uc art p0 p1) (hM : M ≠ 0)
    (hnb : neighborsByCellId.length = uo.length) :
    ∃ l, generate_legal_action_indices_inner 3 atype turn charges uo uk uc art
      p0 p1 M = .ok l := by
  by_cases h12 : atype = 1 ∨ atype = 2
  · by_cases hcap : 20 ≤ ownerTotal uo uc turn
    · exact ⟨[], legal_inner_add_cap _ _ _ _ _ _ _ _ _ _ hb hM h12 hcap⟩
    · rcases h12 with h | h
      · subst h
        exact ⟨_, legal_inner_add_tank _ _ _ _ _ _ _ _ _ hb hM hcap⟩
      · subst h
        exact ⟨_, legal_inner_add_bot _ _ _ _ _ _ _ _ _ hb hM hcap⟩
  · by_cases h34 : atype = 3 ∨ atype = 4
    · exact ⟨_, legal_inner_moves _ _ _ _ _ _ _ _ _ _ hb hM h34 hnb⟩
    · exact ⟨[], legal_inner_atype_other _ _ _ _ _ _ _ _ _ _ hb hM h12 h34⟩

theorem after_success_ok (g3 : NativeSatGame) (M : Nat)
    (hb : boardArgsOk g3.unit_owner g3.unit_kind g3.unit_count g3.is_artefact
      g3.is_p0_start g3.is_p1_start)
    (hM : M ≠ 0)
    (hnb : neighborsByCellId.length = g3.unit_owner.length) :
    ∃ r, after_success g3 M = .ok (true, r) := by
  obtain ⟨l, hl⟩ := legal_inner_state3_ok g3.action_type_code (toI8 g3.turn)
    g3.sat_charges g3.unit_owner g3.unit_kind g3.unit_count g3.is_artefact
    g3.is_p0_start g3.is_p1_start M hb hM hnb
  by_cases h1 : (check_win g3).1 = true
  · exact ⟨_, by simp only [after_success]; rw [if_pos h1]⟩
  · by_cases h2 : wrap16 (g3.actions_remaining - 1) ≤ 0
    · exact ⟨_, by simp only [after_success]; rw [if_neg h1, if_pos h2]⟩
    · by_cases h3 : l.isEmpty = true
      · refine ⟨end_turn { g3 with
          actions_remaining := wrap16 (g3.actions_remaining - 1) }, ?_⟩
        simp only [after_success]
        rw [if_neg h1, if_neg h2, hl]
        dsimp only
        rw [if_pos h3]
      · refine ⟨{ g3 with
          actions_remaining := wrap16 (g3.actions_remaining - 1) }, ?_⟩
        simp only [after_success]
        rw [if_neg h1, if_neg h2, hl]
        dsimp only
        rw [if_neg h3]

theorem moveLoHi_ok_iff (turn : Int) (req sc : Nat) (tow : Int) (tk tc : Nat)
    (ad : Bool) (amt : Nat) (h1 : 1 ≤ amt) (hturnne : turn ≠ -1)
    (htk : tk ≤ 2) (htk0 : tow ≠ -1 → tk ≠ 0) (hreq : req = 1 ∨ req = 2) :
    (1 ≤ (moveLoHi turn req sc tow tk tc ad).1 ∧
      (moveLoHi turn req sc tow tk tc ad).1 ≤ amt ∧
      amt ≤ (moveLoHi turn req sc tow tk tc ad).2) ↔
    (amt ≤ sc ∧ ¬(req = 2 ∧ ad = true) ∧ ¬(tow = turn ∧ tk ≠ req) ∧
      ¬(tow ≠ turn ∧ tow ≠ -1 ∧ req = 1) ∧
      ¬(tow ≠ turn ∧ tow ≠ -1 ∧ tk = 2 ∧ amt ≤ tc)) := by
  unfold moveLoHi
  split_ifs <;> simp_all <;> omega

set_option maxHeartbeats 1000000 in
theorem moveApplyOk_iff_block (g : NativeSatGame) (ord amt M : Nat)
    (hord : ord < edgeList.length) (h1 : 1 ≤ amt) (hamtM : amt ≤ M)
    (hturn : g.turn ≤ 1)
    (hnuo : g.unit_owner.length = numCells)
    (hklen : g.unit_kind.length = g.unit_owner.length)
    (hclen : g.unit_count.length = g.unit_owner.length)
    (hkind2 : ∀ i, i < g.unit_kind.length → g.unit_kind.getD i 0 ≤ 2)
    (hinv : cellInvariant g) :
    moveApplyOk g (edgeSrc ord) (edgeDst ord) amt ↔
      (8 + g.unit_owner.length + ord * M + (amt - 1)) ∈
        legalMoves (toI8 g.turn) (if g.action_type_code = 3 then 2 else 1)
          g.unit_owner g.unit_kind g.unit_count g.is_artefact M := by
  have hti : toI8 g.turn ≠ -1 := toI8_ne_neg_one g.turn hturn
  have hreq : (if g.action_type_code = 3 then (2 : Nat) else 1) = 1 ∨
      (if g.action_type_code = 3 then (2 : Nat) else 1) = 2 := by
    by_cases h : g.action_type_code = 3
    · exact Or.inr (if_pos h)
    · exact Or.inl (if_neg h)
  have hsid := (edge_bounds ord hord).1
  have heid := (edge_bounds ord hord).2.1
  have htk : g.unit_kind.getD (edgeDst ord) 0 ≤ 2 := hkind2 _ (by omega)
  have htk0 : g.unit_owner.getD (edgeDst ord) (-1) ≠ -1 →
      g.unit_kind.getD (edgeDst ord) 0 ≠ 0 := by
    intro hne
    have hc0 : g.unit_count.getD (edgeDst ord) 0 ≠ 0 :=
      fun h => hne ((hinv _ (by omega)).1.mpr h)
    exact (hinv _ (by omega)).2 (Nat.pos_of_ne_zero hc0)
  have hLH := moveLoHi_ok_iff (toI8 g.turn)
    (if g.action_type_code = 3 then 2 else 1)
    (g.unit_count.getD (edgeSrc ord) 0)
    (g.unit_owner.getD (edgeDst ord) (-1))
    (g.unit_kind.getD (edgeDst ord) 0)
    (g.unit_count.getD (edgeDst ord) 0)
    (g.is_artefact.getD (edgeDst ord) false) amt h1 hti htk htk0 hreq
  constructor
  · rintro ⟨a1, a2, a3, a4, a5, a6, a7, a8, a9, a10, a11, a12⟩
    have hb := hLH.2 ⟨a6, a9, a10, a11, a12⟩
    rw [mem_legalMoves]
    refine ⟨ord, hord, ?_⟩
    rw [mem_moveBlock]
    unfold moveLoHiAt
    refine ⟨⟨a4, a5, by omega, ?_, ?_⟩, hb.1, amt, hb.2.1,
      Nat.le_min.mpr ⟨hb.2.2, hamtM⟩, rfl⟩
    · rw [if_toI8 g.turn hturn 83 3]
      exact a7
    · rw [if_toI8 g.turn hturn 84 4]
      exact a8
  · intro hmem
    rw [mem_legalMoves] at hmem
    obtain ⟨ord2, hord2, hblk⟩ := hmem
    rw [mem_moveBlock] at hblk
    obtain ⟨hsrc, hlo1, a, hloa, hahi, hidx⟩ := hblk
    have haM : a ≤ M := le_trans hahi (min_le_right _ _)
    have ha1 : 1 ≤ a := le_trans hlo1 hloa
    obtain ⟨he1, he2⟩ := encode_unique M ord2 ord a amt ha1 haM h1 hamtM
      (by omega)
    subst he1
    subst he2
    obtain ⟨ho, hk, hc, hfa, hfb⟩ := hsrc
    unfold moveLoHiAt at hlo1 hloa hahi
    have hbounds := hLH.1 ⟨hlo1, hloa, le_trans hahi (min_le_left _ _)⟩
    obtain ⟨hsc, h9, h10, h11, h12⟩ := hbounds
    have hfa2 : edgeDst ord2 ≠ (if g.turn = 0 then 83 else 3) := by
      rw [← if_toI8 g.turn hturn 83 3]
      exact hfa
    have hfb2 : edgeDst ord2 ≠ (if g.turn = 0 then 84 else 4) := by
      rw [← if_toI8 g.turn hturn 84 4]
      exact hfb
    exact ⟨by omega, by omega, h1, ho, hk, hsc, hfa2, hfb2, h9, h10, h11, h12⟩

theorem cs_equiv (g : NativeSatGame) (idx : Nat) :
    (choose_satellite_step g idx).1 = true ↔
      idx ∈ legalSatChoices g.sat_charges := by
  rw [mem_legalSatChoices]
  unfold choose_satellite_step
  by_cases h6 : 6 ≤ idx
  · rw [if_pos h6]
    simp only [Bool.false_eq_true, false_iff]
    omega
  · rw [if_neg h6]
    by_cases hch : g.sat_charges.getD idx 0 = 0
    · rw [if_pos hch]
      simp only [Bool.false_eq_true, false_iff]
      omega
    · rw [if_neg hch]
      simp only [true_iff]
      omega

theorem cs_fail_eq (g : NativeSatGame) (idx : Nat)
    (hf : (choose_satellite_step g idx).1 = false) :
    choose_satellite_step g idx = (false, g) := by
  unfold choose_satellite_step at hf ⊢
  split_ifs at hf ⊢ <;> rfl

theorem cd_step (g : NativeSatGame) (idx M : Nat)
    (hb : boardArgsOk g.unit_owner g.unit_kind g.unit_count g.is_artefact
      g.is_p0_start g.is_p1_start)
    (hM : M ≠ 0)
    (hnb : neighborsByCellId.length = g.unit_owner.length) :
    ∃ b g2, choose_direction_step g idx M = .ok (b, g2) ∧
      (b = true ↔ idx ∈ [6, 7]) ∧ (b = false → g2 = g) := by
  by_cases h67 : idx ≠ 6 ∧ idx ≠ 7
  · refine ⟨false, g, ?_, ?_, fun _ => rfl⟩
    · simp only [choose_direction_step]
      rw [if_pos h67]
    · simp only [Bool.false_eq_true, false_iff, List.mem_cons,
        List.not_mem_nil, or_false]
      omega
  · obtain ⟨l, hl⟩ := legal_inner_state3_ok g.action_type_code (toI8 g.turn)
      (distribute_charges g.sat_charges g.active_satellite_idx
        (if idx = 7 then 1 else -1) g.picked_up_charges.toNat).1
      g.unit_owner g.unit_kind g.unit_count g.is_artefact g.is_p0_start
      g.is_p1_start M hb hM hnb
    have hmemt : idx ∈ [6, 7] := by
      simp only [List.mem_cons, List.not_mem_nil, or_false]
      omega
    by_cases hemp : l.isEmpty = true
    · refine ⟨true, end_turn { g with
        sat_charges := (distribute_charges g.sat_charges g.active_satellite_idx
          (if idx = 7 then 1 else -1) g.picked_up_charges.toNat).1 }, ?_,
        iff_of_true rfl hmemt, fun h => nomatch h⟩
      simp only [choose_direction_step]
      rw [if_neg h67, hl]
      dsimp only
      rw [if_pos hemp]
    · refine ⟨true, { g with
        sat_charges := (distribute_charges g.sat_charges g.active_satellite_idx
          (if idx = 7 then 1 else -1) g.picked_up_charges.toNat).1,
        actions_remaining := g.picked_up_charges, state_code := 3 }, ?_,
        iff_of_true rfl hmemt, fun h => nomatch h⟩
      simp only [choose_direction_step]
      rw [if_neg h67, hl]
      dsimp only
      rw [if_neg hemp]

theorem perform_true_add (g : NativeSatGame) (idx M : Nat)
    (hat : g.action_type_code = 1 ∨ g.action_type_code = 2) :
    (perform_step g idx M).1 = true ↔
      (8 ≤ idx ∧ idx < 8 + g.unit_owner.length) ∧
        (apply_add g (idx - 8)).1 = true := by
  unfold perform_step
  rw [if_pos hat]
  by_cases hr : 8 ≤ idx ∧ idx < 8 + g.unit_owner.length
  · rw [if_pos hr]
    simp [hr]
  · rw [if_neg hr]
    simp [hr]

theorem perform_true_move (g : NativeSatGame) (idx M : Nat)
    (hat12 : ¬ (g.action_type_code = 1 ∨ g.action_type_code = 2))
    (hat34 : g.action_type_code = 3 ∨ g.action_type_code = 4) :
    (perform_step g idx M).1 = true ↔
      (8 + g.unit_owner.length ≤ idx ∧
        idx < 8 + g.unit_owner.length +
          (neighborsByCellId.map List.length).sum * M) ∧
      (idx - (8 + g.unit_owner.length)) / M < edgeList.length ∧
      (apply_move g (edgeSrc ((idx - (8 + g.unit_owner.length)) / M))
        (edgeDst ((idx - (8 + g.unit_owner.length)) / M))
        ((idx - (8 + g.unit_owner.length)) % M + 1)).1 = true := by
  unfold perform_step
  rw [if_neg hat12, if_pos hat34]
  by_cases hr : 8 + g.unit_owner.length ≤ idx ∧
      idx < 8 + g.unit_owner.length + (neighborsByCellId.map List.length).sum * M
  · rw [if_pos hr]
    by_cases ho : (idx - (8 + g.unit_owner.length)) / M < edgeList.length
    · rw [if_pos ho]
      unfold edgeSrc edgeDst
      simp [hr, ho]
    · rw [if_neg ho]
      simp [hr, ho]
  · rw [if_neg hr]
    simp [hr]

theorem add_tank_index_equiv (g : NativeSatGame) (idx : Nat)
    (hturn : g.turn ≤ 1) (hnf : noMoverTankOnForbidden g)
    (h1 : g.action_type_code = 1)
    (hcap : ¬ 20 ≤ ownerTotal g.unit_owner g.unit_count (toI8 g.turn)) :
    ((8 ≤ idx ∧ idx < 8 + g.unit_owner.length) ∧
        (apply_add g (idx - 8)).1 = true) ↔
      idx ∈ legalAddTank (toI8 g.turn) g.unit_owner g.unit_kind g.is_artefact
        g.is_p0_start g.is_p1_start := by
  rw [mem_legalAddTank, apply_add_succ_iff]
  have hti := toI8_ne_neg_one g.turn hturn
  constructor
  · rintro ⟨⟨hge, hlt⟩, -, -, hdisj⟩
    refine ⟨idx - 8, by omega, by omega, ?_⟩
    rcases hdisj with ⟨-, hart, hcond⟩ | ⟨hne1, -, -⟩
    · push_neg at hart
      rcases hcond with hown | ⟨hown, hkind⟩
      · refine Or.inl ⟨hown, ?_, ?_⟩
        · rw [if_toI8 g.turn hturn g.is_p1_start g.is_p0_start]
          exact Bool.not_eq_true _ |>.mp hart.2
        · exact Bool.not_eq_true _ |>.mp hart.1
      · exact Or.inr ⟨by rw [hown]; exact hti, hown, hkind⟩
    · exact absurd h1 hne1
  · rintro ⟨cid, hcid, rfl, hcond⟩
    have h8 : 8 + cid - 8 = cid := by omega
    rw [h8]
    refine ⟨⟨by omega, by omega⟩, hcid, hcap, Or.inl ⟨h1, ?_, ?_⟩⟩
    · rcases hcond with ⟨hown, hopp, hart⟩ | ⟨hne, hown, hkind⟩
      · rintro (h | h)
        · rw [hart] at h
          cases h
        · rw [← if_toI8 g.turn hturn g.is_p1_start g.is_p0_start, hopp] at h
          cases h
      · obtain ⟨hart0, hopp0⟩ := hnf cid hcid ⟨hown, hkind⟩
        rintro (h | h)
        · rw [hart0] at h
          cases h
        · rw [hopp0] at h
          cases h
    · rcases hcond with ⟨hown, -, -⟩ | ⟨-, hown, hkind⟩
      · exact Or.inl hown
      · exact Or.inr ⟨hown, hkind⟩

theorem add_bot_index_equiv (g : NativeSatGame) (idx : Nat)
    (hturn : g.turn ≤ 1) (h2 : g.action_type_code = 2)
    (hcap : ¬ 20 ≤ ownerTotal g.unit_owner g.unit_count (toI8 g.turn)) :
    ((8 ≤ idx ∧ idx < 8 + g.unit_owner.length) ∧
        (apply_add g (idx - 8)).1 = true) ↔
      idx ∈ legalAddBot (toI8 g.turn) g.unit_owner g.unit_kind g.is_p0_start
        g.is_p1_start := by
  rw [mem_legalAddBot, apply_add_succ_iff]
  constructor
  · rintro ⟨⟨hge, hlt⟩, -, -, hdisj⟩
    refine ⟨idx - 8, by omega, by omega, ?_⟩
    rcases hdisj with ⟨ha1, -, -⟩ | ⟨-, -, hcond⟩
    · rw [h2] at ha1
      cases ha1
    · rcases hcond with h | ⟨hown, hst⟩
      · exact Or.inl h
      · refine Or.inr ⟨?_, hown⟩
        rw [if_toI8 g.turn hturn g.is_p0_start g.is_p1_start]
        exact hst
  · rintro ⟨cid, hcid, rfl, hcond⟩
    have h8 : 8 + cid - 8 = cid := by omega
    rw [h8]
    refine ⟨⟨by omega, by omega⟩, hcid, hcap,
      Or.inr ⟨by rw [h2]; omega, h2, ?_⟩⟩
    rcases hcond with h | ⟨hst, hown⟩
    · exact Or.inl h
    · refine Or.inr ⟨hown, ?_⟩
      rw [← if_toI8 g.turn hturn g.is_p0_start g.is_p1_start]
      exact hst

theorem state3_wrap (g : NativeSatGame) (M : Nat) (L : List Nat)
    (hs3 : g.state_code = 3) (hM : M ≠ 0)
    (hb : boardArgsOk g.unit_owner g.unit_kind g.unit_count g.is_artefact
      g.is_p0_start g.is_p1_start)
    (hnb : neighborsByCellId.length = g.unit_owner.length)
    (hequiv : ∀ idx, (perform_step g idx M).1 = true ↔ idx ∈ L) :
    ∀ idx, ∃ b g2, apply_action_index g idx M = .ok (b, g2) ∧
      (b = true ↔ idx ∈ L) ∧ (b = false → g2 = g) := by
  intro idx
  have happ : apply_action_index g idx M =
      (if (perform_step g idx M).1 = false then
        .ok (false, (perform_step g idx M).2)
      else after_success (perform_step g idx M).2 M) := by
    unfold apply_action_index
    rw [if_neg (by push_neg; exact ⟨hM, by omega⟩), if_neg (by omega),
      if_neg (by omega), if_neg (by omega)]
  by_cases hp : (perform_step g idx M).1 = true
  · have hlen := perform_step_board_lengths g idx M
    obtain ⟨h1l, h2l, h3l, h4l, h5l, h6l⟩ := hlen
    obtain ⟨hb1, hb2, hb3, hb4, hb5⟩ := hb
    obtain ⟨r, hr⟩ := after_success_ok (perform_step g idx M).2 M
      ⟨by omega, by omega, by omega, by omega, by omega⟩ hM (by omega)
    refine ⟨true, r, ?_, iff_of_true rfl ((hequiv idx).1 hp), fun h => nomatch h⟩
    rw [happ, if_neg (by rw [hp]; simp)]
    exact hr
  · have hp' : (perform_step g idx M).1 = false := by
      revert hp
      cases (perform_step g idx M).1 <;> simp
    refine ⟨false, g, ?_,
      iff_of_false (by simp) (fun hm => hp ((hequiv idx).2 hm)), fun _ => rfl⟩
    rw [happ, if_pos hp', perform_step_fail_eq g idx M hp']

/-- C1 (amended): on well-formed states (matching board-array lengths,
Rust type ranges, the cell invariant, and no mover-owned tank standing on
an artefact or opponent-start cell), `legal_action_indices` succeeds and
`apply_action_index` returns applied = true exactly on the enumerated
indices; on every other index (including every index when
`max_move_amount = 0` or the phase is GameOver) it returns applied = false
with the state unchanged. -/
theorem c1_apply_matches_enumeration (g : NativeSatGame) (M : Nat)
    (hwf : WF g) :
    ∃ L, g.legal_action_indices M = .ok L ∧
      ∀ idx, ∃ b g2, apply_action_index g idx M = .ok (b, g2) ∧
        (b = true ↔ idx ∈ L) ∧ (b = false → g2 = g) := by
  obtain ⟨hlen, hrg, hinv, hnf⟩ := hwf
  obtain ⟨hl1, hl2, hl3, hl4, hl5, hl6⟩ := hlen
  have hturn : g.turn ≤ 1 := hrg.2.2.1
  have hkind2 : ∀ i, i < g.unit_kind.length → g.unit_kind.getD i 0 ≤ 2 :=
    hrg.2.2.2.1
  have hb : boardArgsOk g.unit_owner g.unit_kind g.unit_count g.is_artefact
      g.is_p0_start g.is_p1_start :=
    ⟨by omega, by omega, by omega, by omega, by omega⟩
  have hnb : neighborsByCellId.length = g.unit_owner.length := by
    have := neighborsByCellId_length
    omega
  unfold NativeSatGame.legal_action_indices
  by_cases hM : M = 0
  · subst hM
    refine ⟨[], legal_inner_mzero _ _ _ _ _ _ _ _ _ _ hb, fun idx =>
      ⟨false, g, ?_, by simp, fun _ => rfl⟩⟩
    unfold apply_action_index
    rw [if_pos (Or.inl rfl)]
  by_cases hs0 : g.state_code = 0
  · rw [hs0]
    refine ⟨[], legal_inner_s0 _ _ _ _ _ _ _ _ _ _ hb hM, fun idx =>
      ⟨false, g, ?_, by simp, fun _ => rfl⟩⟩
    unfold apply_action_index
    rw [if_pos (Or.inr hs0)]
  by_cases hs1 : g.state_code = 1
  · rw [hs1]
    refine ⟨legalSatChoices g.sat_charges,
      legal_inner_s1 _ _ _ _ _ _ _ _ _ _ hb hM, fun idx => ?_⟩
    have happ : apply_action_index g idx M =
        .ok (choose_satellite_step g idx) := by
      unfold apply_action_index
      rw [if_neg (by push_neg; exact ⟨hM, hs0⟩), if_pos hs1]
    by_cases hcs : (choose_satellite_step g idx).1 = true
    · refine ⟨true, (choose_satellite_step g idx).2, ?_,
        iff_of_true rfl ((cs_equiv g idx).mp hcs), fun h => nomatch h⟩
      rw [happ]
      exact congrArg Except.ok
        (show choose_satellite_step g idx =
          (true, (choose_satellite_step g idx).2) from Prod.ext hcs rfl)
    · have hf : (choose_satellite_step g idx).1 = false := by
        revert hcs
        cases (choose_satellite_step g idx).1 <;> simp
      refine ⟨false, g, ?_,
        iff_of_false (by simp) (fun hm => hcs ((cs_equiv g idx).mpr hm)),
        fun _ => rfl⟩
      rw [happ, cs_fail_eq g idx hf]
  by_cases hs2 : g.state_code = 2
  · rw [hs2]
    refine ⟨[6, 7], legal_inner_s2 _ _ _ _ _ _ _ _ _ _ hb hM, fun idx => ?_⟩
    obtain ⟨b, g2, hcd, hbiff, hbf⟩ := cd_step g idx M hb hM hnb
    refine ⟨b, g2, ?_, hbiff, hbf⟩
    unfold apply_action_index
    rw [if_neg (by push_neg; exact ⟨hM, hs0⟩), if_neg hs1, if_pos hs2]
    exact hcd
  by_cases hs3 : g.state_code = 3
  case neg =>
    refine ⟨[], legal_inner_s_other _ _ _ _ _ _ _ _ _ _ _ hb hM hs0 hs1 hs2 hs3,
      fun idx => ⟨false, g, ?_, by simp, fun _ => rfl⟩⟩
    unfold apply_action_index
    rw [if_neg (by push_neg; exact ⟨hM, hs0⟩), if_neg hs1, if_neg hs2,
      if_pos hs3]
  rw [hs3]
  by_cases hat12 : g.action_type_code = 1 ∨ g.action_type_code = 2
  · by_cases hcap : 20 ≤ ownerTotal g.unit_owner g.unit_count (toI8 g.turn)
    · refine ⟨[], legal_inner_add_cap _ _ _ _ _ _ _ _ _ _ hb hM hat12 hcap,
        state3_wrap g M [] hs3 hM hb hnb ?_⟩
      intro idx
      rw [perform_true_add g idx M hat12]
      simp only [List.not_mem_nil, iff_false]
      rintro ⟨-, htrue⟩
      rw [apply_add_succ_iff] at htrue
      exact htrue.2.1 hcap
    · rcases hat12 with h1 | h2
      · rw [h1]
        refine ⟨legalAddTank (toI8 g.turn) g.unit_owner g.unit_kind
            g.is_artefact g.is_p0_start g.is_p1_start,
          legal_inner_add_tank _ _ _ _ _ _ _ _ _ hb hM hcap,
          state3_wrap g M _ hs3 hM hb hnb ?_⟩
        intro idx
        rw [perform_true_add g idx M (Or.inl h1)]
        exact add_tank_index_equiv g idx hturn hnf h1 hcap
      · rw [h2]
        refine ⟨legalAddBot (toI8 g.turn) g.unit_owner g.unit_kind
            g.is_p0_start g.is_p1_start,
          legal_inner_add_bot _ _ _ _ _ _ _ _ _ hb hM hcap,
          state3_wrap g M _ hs3 hM hb hnb ?_⟩
        intro idx
        rw [perform_true_add g idx M (Or.inr h2)]
        exact add_bot_index_equiv g idx hturn h2 hcap
  · by_cases hat34 : g.action_type_code = 3 ∨ g.action_type_code = 4
    · refine ⟨legalMoves (toI8 g.turn)
          (if g.action_type_code = 3 then 2 else 1) g.unit_owner g.unit_kind
          g.unit_count g.is_artefact M,
        legal_inner_moves _ _ _ _ _ _ _ _ _ _ hb hM hat34 hnb,
        state3_wrap g M _ hs3 hM hb hnb ?_⟩
      intro idx
      rw [perform_true_move g idx M hat12 hat34]
      constructor
      · rintro ⟨⟨hge, hlt⟩, ho, htrue⟩
        have hok := (apply_move_succ_iff _ _ _ _).1 htrue
        have hmlt : (idx - (8 + g.unit_owner.length)) % M < M :=
          Nat.mod_lt _ (Nat.pos_of_ne_zero hM)
        have hmem := (moveApplyOk_iff_block g
          ((idx - (8 + g.unit_owner.length)) / M)
          ((idx - (8 + g.unit_owner.length)) % M + 1) M ho (by omega)
          (by omega) hturn (by omega) (by omega) (by omega) hkind2 hinv).1 hok
        have hdm : (idx - (8 + g.unit_owner.length)) / M * M +
            (idx - (8 + g.unit_owner.length)) % M =
            idx - (8 + g.unit_owner.length) := by
          rw [Nat.mul_comm]
          exact Nat.div_add_mod _ M
        have hidx : idx = 8 + g.unit_owner.length +
            (idx - (8 + g.unit_owner.length)) / M * M +
            ((idx - (8 + g.unit_owner.length)) % M + 1 - 1) := by
          omega
        rw [hidx]
        exact hmem
      · intro hmem
        have hco := hmem
        rw [mem_legalMoves] at hco
        obtain ⟨ord, hord, hblk⟩ := hco
        rw [mem_moveBlock] at hblk
        obtain ⟨-, hlo1, a, hloa, hahi, hidx⟩ := hblk
        have haM : a ≤ M := le_trans hahi (min_le_right _ _)
        have ha1 : 1 ≤ a := le_trans hlo1 hloa
        have ha1' : a - 1 < M := by omega
        subst hidx
        have hok := (moveApplyOk_iff_block g ord a M hord ha1 haM hturn
          (by omega) (by omega) (by omega) hkind2 hinv).2 hmem
        have hr : 8 + g.unit_owner.length + ord * M + (a - 1) -
            (8 + g.unit_owner.length) = ord * M + (a - 1) := by omega
        have hdiv : (ord * M + (a - 1)) / M = ord := by
          rw [Nat.mul_comm, Nat.mul_add_div (Nat.pos_of_ne_zero hM),
            Nat.div_eq_of_lt ha1', Nat.add_zero]
        have hmod : (ord * M + (a - 1)) % M = a - 1 := by
          rw [Nat.mul_comm, Nat.mul_add_mod, Nat.mod_eq_of_lt ha1']
        have hS := edgeList_length_eq
        have hStot : ord * M + (a - 1) <
            (neighborsByCellId.map List.length).sum * M := by
          rw [hS]
          have key := Nat.mul_le_mul_right M (Nat.succ_le_of_lt hord)
          rw [Nat.succ_mul] at key
          omega
        have hamt : a - 1 + 1 = a := by omega
        refine ⟨⟨by omega, by omega⟩, ?_, ?_⟩
        · rw [hr, hdiv]
          exact hord
        · rw [hr, hdiv, hmod, hamt]
          exact (apply_move_succ_iff _ _ _ _).2 hok
    · refine ⟨[], legal_inner_atype_other _ _ _ _ _ _ _ _ _ _ hb hM hat12 hat34,
        state3_wrap g M [] hs3 hM hb hnb ?_⟩
      intro idx
      unfold perform_step
      rw [if_neg hat12, if_neg hat34]
      simp

/-- C1 counterexample: at `gC1` the cell invariant, lengths and ranges all
hold, yet index 48 (add_tank reinforcement of the mover tank on the
artefact cell 40) is enumerated while applying it returns
applied = false and leaves the state unchanged — the enumerator's
occupied-cell branch skips the artefact/opponent-start test that
`apply_add` performs first, so the claim fails without the
no-mover-tank-on-forbidden-cell condition. -/
theorem c1_counterexample :
    cellInvariant gC1 ∧ boardLengthsOk gC1 ∧ rangesOk gC1 ∧
    ¬ noMoverTankOnForbidden gC1 ∧
    gC1.legal_action_indices 3 = .ok gC1Legal ∧
    48 ∈ gC1Legal ∧
    apply_action_index gC1 48 3 = .ok (false, gC1) := by
  decide

/-- C1 witness: the amended equivalence applied to the well-formed
baseline state with `max_move_amount = 3`. -/
theorem c1_witness :
    WF baseState ∧
    (∃ L, baseState.legal_action_indices 3 = .ok L ∧
      ∀ idx, ∃ b g2, apply_action_index baseState idx 3 = .ok (b, g2) ∧
        (b = true ↔ idx ∈ L) ∧ (b = false → g2 = baseState)) :=
  ⟨by decide, c1_apply_matches_enumeration baseState 3 (by decide)⟩

end Satellites
